import Mathlib

/-!
Verification of the Atlas Commute scheduler pipeline.

This file is a shallow embedding of the self-healing LangGraph pipeline in
`src/agents/scheduler/graph.py` together with its data model
(`src/agents/scheduler/state.py`) and the two mock-mode data clients
(`src/tools/clients/traffic_client.py`, `src/tools/clients/flight_client.py`).

Modelling conventions:
- Machine floats and datetimes are modelled as `Int` (datetimes as epoch
  seconds; `datetime.fromisoformat` and `.isoformat` become oracle
  functions carried in the environment or passed as parameters).
- All collaborator behaviour (the two Gemini model calls, `json.loads`,
  the two provider calls, the 10 s `asyncio.wait_for` deadline, the clock)
  is captured in an explicit `AgentEnv` record; the pipeline itself is a
  pure function of the environment and the initial state.
- LangGraph channel semantics: a node returns a partial update; the
  `error_log` channel is annotated with `operator.add` and hence appends,
  every other channel overwrites when the update carries the key.
- Fallible Python code (anything that can raise) returns `Except String`.
-/

/-- `TrafficStatus` enum from `state.py`. -/
inductive TrafficStatus where
  | clear
  | moderate
  | heavy
  | gridlock
deriving DecidableEq, Repr

/-- `FlightStatus` enum from `state.py`. -/
inductive FlightStatus where
  | on_time
  | delayed
  | cancelled
  | boarding
deriving DecidableEq, Repr

/-- `DecisionAction` enum from `state.py`. -/
inductive DecisionAction where
  | wait
  | nudge_leave_now
  | nudge_book_uber
deriving DecidableEq, Repr

/-- `TrafficMetrics` pydantic model from `state.py` (ints with `ge=0`
checked by the validator below; `traffic_delay_seconds` defaults to 0). -/
structure TrafficMetrics where
  distance_meters : Int
  duration_seconds : Int
  traffic_delay_seconds : Int := 0
  status : TrafficStatus
  route_summary : String
deriving DecidableEq, Repr

/-- `FlightMetrics` pydantic model from `state.py`; datetimes are epoch
seconds, `gate` and `terminal` default to `None`. -/
structure FlightMetrics where
  flight_number : String
  status : FlightStatus
  scheduled_departure : Int
  estimated_departure : Int
  gate : Option String := none
  terminal : Option String := none
deriving DecidableEq, Repr

/-- `UserContext` pydantic model from `state.py`. `flight_number` must match
the pattern checked by `matchesFlightNumber`; `target_arrival_time` is an
optional datetime. -/
structure UserContext where
  user_id : String
  origin : String
  destination : String
  flight_number : String
  target_arrival_time : Option Int := none
deriving DecidableEq, Repr

/-- `CommutePlan` pydantic model from `state.py`
(`buffer_minutes_remaining` is a float in the source, modelled as `Int`). -/
structure CommutePlan where
  metrics_analyzed : Bool := true
  buffer_minutes_remaining : Int
  recommended_action : DecisionAction
  reasoning_trace : String
  notification_message : Option String := none
deriving DecidableEq, Repr

/-- Minimal JSON value model: the result of `json.loads`. -/
inductive JVal where
  | jnull
  | jbool (b : Bool)
  | jnum (n : Int)
  | jstr (s : String)
  | jarr (xs : List JVal)
  | jobj (fields : List (String × JVal))

/-- Dictionary field access returning `none` for missing keys or
non-object values. -/
def JVal.getField : JVal → String → Option JVal
  | JVal.jobj fields, key => fields.lookup key
  | _, _ => none

/-- Python subscript access `data[key]`: raises (`KeyError` on a dict
without the key, `TypeError` on a non-dict) instead of returning `None`. -/
def JVal.getFieldE (j : JVal) (key : String) : Except String JVal :=
  match j with
  | JVal.jobj fields =>
    match fields.lookup key with
    | some v => Except.ok v
    | none => Except.error ("KeyError: " ++ key)
  | _ => Except.error ("TypeError: value is not subscriptable")

/-- Python subscript assignment `data[key] = v`: raises `TypeError` on a
non-dict target, otherwise replaces the binding for `key`. -/
def JVal.setFieldE (j : JVal) (key : String) (v : JVal) : Except String JVal :=
  match j with
  | JVal.jobj fields =>
    Except.ok (JVal.jobj (fields.filter (fun p => p.1 ≠ key) ++ [(key, v)]))
  | _ => Except.error ("TypeError: value does not support item assignment")

/-- Expect a JSON string (a non-`str` argument makes
`datetime.fromisoformat` raise `TypeError`). -/
def JVal.asStr : JVal → Except String String
  | JVal.jstr s => Except.ok s
  | _ => Except.error ("TypeError: fromisoformat argument must be str")

/-- Character class `[A-Z0-9]` of the `flight_number` pattern. -/
def isFlightChar (c : Char) : Bool :=
  ('A' ≤ c && c ≤ 'Z') || ('0' ≤ c && c ≤ '9')

/-- Anchored regex `[A-Z0-9]` two-or-more then digits one-or-more, the
pydantic pattern on `UserContext.flight_number`: some split point `k ≥ 2`
has the first `k` characters in `[A-Z0-9]` and a nonempty all-digit rest. -/
def matchesFlightNumber (s : String) : Bool :=
  let cs := s.toList
  (List.range cs.length).any (fun k =>
    decide (2 ≤ k) && (cs.take k).all isFlightChar &&
      decide (cs.drop k ≠ []) && (cs.drop k).all Char.isDigit)

/-- Required string field of a pydantic schema. -/
def reqStr (j : JVal) (key : String) : Except String String :=
  match j.getField key with
  | some (JVal.jstr s) => Except.ok s
  | some _ => Except.error (key ++ ": input should be a valid string")
  | none => Except.error (key ++ ": field required")

/-- Required integer field with the `ge=0` constraint. -/
def reqNonNegInt (j : JVal) (key : String) : Except String Int :=
  match j.getField key with
  | some (JVal.jnum n) =>
    if 0 ≤ n then Except.ok n
    else Except.error (key ++ ": input should be greater than or equal to 0")
  | some _ => Except.error (key ++ ": input should be a valid integer")
  | none => Except.error (key ++ ": field required")

/-- Optional nullable string field defaulting to `None`. -/
def optStr (j : JVal) (key : String) : Except String (Option String) :=
  match j.getField key with
  | none => Except.ok none
  | some JVal.jnull => Except.ok none
  | some (JVal.jstr s) => Except.ok (some s)
  | some _ => Except.error (key ++ ": input should be a valid string")

/-- Enum parse for `TrafficStatus`. -/
def TrafficStatus.ofString? (s : String) : Option TrafficStatus :=
  if s = "clear" then some TrafficStatus.clear
  else if s = "moderate" then some TrafficStatus.moderate
  else if s = "heavy" then some TrafficStatus.heavy
  else if s = "gridlock" then some TrafficStatus.gridlock
  else none

/-- Enum parse for `FlightStatus`. -/
def FlightStatus.ofString? (s : String) : Option FlightStatus :=
  if s = "on_time" then some FlightStatus.on_time
  else if s = "delayed" then some FlightStatus.delayed
  else if s = "cancelled" then some FlightStatus.cancelled
  else if s = "boarding" then some FlightStatus.boarding
  else none

/-- Enum parse for `DecisionAction`. -/
def DecisionAction.ofString? (s : String) : Option DecisionAction :=
  if s = "wait" then some DecisionAction.wait
  else if s = "nudge_leave_now" then some DecisionAction.nudge_leave_now
  else if s = "nudge_book_uber" then some DecisionAction.nudge_book_uber
  else none

/-- `UserContext.model_validate` on a decoded JSON value. `user_id`,
`origin`, `destination` and `flight_number` are required strings, the
flight number must match the pattern, `target_arrival_time` is an optional
datetime parsed by `fromIso`; extra keys are ignored. -/
def validateUserContext (fromIso : String → Except String Int) (j : JVal) :
    Except String UserContext :=
  match j with
  | JVal.jobj _ => do
    let uid ← reqStr j ("user_id")
    let origin ← reqStr j ("origin")
    let dest ← reqStr j ("destination")
    let fn ← reqStr j ("flight_number")
    if matchesFlightNumber fn then do
      let tat ← (match j.getField ("target_arrival_time") with
        | none => Except.ok none
        | some JVal.jnull => Except.ok none
        | some (JVal.jstr s) => (fromIso s).map some
        | some _ =>
          Except.error ("target_arrival_time: input should be a valid datetime"))
      Except.ok { user_id := uid, origin := origin, destination := dest,
                  flight_number := fn, target_arrival_time := tat }
    else Except.error ("flight_number: string should match pattern")
  | _ => Except.error ("input should be a valid dictionary")

/-- `CommutePlan.model_validate` on a decoded JSON value. -/
def validatePlan (j : JVal) : Except String CommutePlan :=
  match j with
  | JVal.jobj _ => do
    let ma ← (match j.getField ("metrics_analyzed") with
      | none => Except.ok true
      | some (JVal.jbool b) => Except.ok b
      | some _ => Except.error ("metrics_analyzed: input should be a valid boolean"))
    let buf ← (match j.getField ("buffer_minutes_remaining") with
      | some (JVal.jnum n) => Except.ok n
      | some _ => Except.error ("buffer_minutes_remaining: input should be a valid number")
      | none => Except.error ("buffer_minutes_remaining: field required"))
    let actS ← reqStr j ("recommended_action")
    let act ← (match DecisionAction.ofString? actS with
      | some a => Except.ok a
      | none => Except.error ("recommended_action: input should be a valid enumeration member"))
    let rt ← reqStr j ("reasoning_trace")
    let nm ← optStr j ("notification_message")
    Except.ok { metrics_analyzed := ma, buffer_minutes_remaining := buf,
                recommended_action := act, reasoning_trace := rt,
                notification_message := nm }
  | _ => Except.error ("input should be a valid dictionary")

/-- `TrafficMetrics.model_validate` on a decoded JSON value. -/
def validateTrafficMetrics (j : JVal) : Except String TrafficMetrics :=
  match j with
  | JVal.jobj _ => do
    let dist ← reqNonNegInt j ("distance_meters")
    let dur ← reqNonNegInt j ("duration_seconds")
    let delay ← (match j.getField ("traffic_delay_seconds") with
      | none => Except.ok (0 : Int)
      | some (JVal.jnum n) =>
        if 0 ≤ n then Except.ok n
        else Except.error ("traffic_delay_seconds: input should be greater than or equal to 0")
      | some _ => Except.error ("traffic_delay_seconds: input should be a valid integer"))
    let stS ← reqStr j ("status")
    let st ← (match TrafficStatus.ofString? stS with
      | some st => Except.ok st
      | none => Except.error ("status: input should be a valid enumeration member"))
    let rs ← reqStr j ("route_summary")
    Except.ok { distance_meters := dist, duration_seconds := dur,
                traffic_delay_seconds := delay, status := st, route_summary := rs }
  | _ => Except.error ("input should be a valid dictionary")

/-- `FlightMetrics.model_validate` on a decoded JSON value; the two
datetime fields are ISO strings parsed by `fromIso`. -/
def validateFlightMetrics (fromIso : String → Except String Int) (j : JVal) :
    Except String FlightMetrics :=
  match j with
  | JVal.jobj _ => do
    let fn ← reqStr j ("flight_number")
    let stS ← reqStr j ("status")
    let st ← (match FlightStatus.ofString? stS with
      | some st => Except.ok st
      | none => Except.error ("status: input should be a valid enumeration member"))
    let schedS ← reqStr j ("scheduled_departure")
    let sched ← fromIso schedS
    let estS ← reqStr j ("estimated_departure")
    let est ← fromIso estS
    let gate ← optStr j ("gate")
    let term ← optStr j ("terminal")
    Except.ok { flight_number := fn, status := st, scheduled_departure := sched,
                estimated_departure := est, gate := gate, terminal := term }
  | _ => Except.error ("input should be a valid dictionary")

/-- Index of the first opening brace in the text, the start position of the
regex match for the DOTALL pattern open-brace dot-star close-brace used in
`node_classify` and `node_reason`. -/
def firstBrace : List Char → Option Nat
  | [] => none
  | c :: cs =>
    if c = '\x7b' then some 0 else (firstBrace cs).map (fun n => n + 1)

/-- Index of the last closing brace in the text, the end position of the
greedy regex match. -/
def lastClose : List Char → Option Nat
  | [] => none
  | c :: cs =>
    match lastClose cs with
    | some j => some (j + 1)
    | none => if c = '\x7d' then some 0 else none

/-- The manual JSON extraction step shared verbatim by `node_classify` and
`node_reason`: the greedy DOTALL regex match runs from the first opening
brace to the last closing brace of the text (the match needs at least one
character between positions, so it exists exactly when some closing brace
follows the first opening brace); with no match the whole text is used. -/
def jsonCandidate (content : String) : String :=
  let cs := content.toList
  match firstBrace cs, lastClose cs with
  | some i, some j =>
    if i < j then String.mk ((cs.drop i).take (j + 1 - i)) else content
  | some _, none => content
  | none, _ => content

/-- `SchedulerState` from `state.py`: the shared LangGraph memory.
`user_id` is the extra key the API route and the tests place in the input
dict (read by the nodes with `state.get`); `error_log` and
`execution_trace` are `operator.add` channels. -/
structure SchedulerState where
  user_id : String
  raw_query : String
  user_context : Option UserContext
  traffic_data : Option TrafficMetrics
  flight_data : Option FlightMetrics
  plan : Option CommutePlan
  error_log : List String
  retry_count : Nat
  execution_trace : List String
deriving DecidableEq, Repr

/-- A partial state update returned by one node: `none` means the key is
absent from the returned dict. No node of the graph ever writes
`execution_trace`, so it is omitted. -/
structure StateUpdate where
  user_context : Option UserContext := none
  traffic_data : Option TrafficMetrics := none
  flight_data : Option FlightMetrics := none
  plan : Option CommutePlan := none
  error_log : List String := []
  retry_count : Option Nat := none
deriving DecidableEq, Repr

/-- LangGraph channel merge of a node update into the state: the
`operator.add` annotation on `error_log` appends, every other channel is a
last-value channel overwritten when the update carries the key. -/
def applyUpdate (s : SchedulerState) (u : StateUpdate) : SchedulerState :=
  { user_id := s.user_id
    raw_query := s.raw_query
    user_context := match u.user_context with
      | some v => some v
      | none => s.user_context
    traffic_data := match u.traffic_data with
      | some v => some v
      | none => s.traffic_data
    flight_data := match u.flight_data with
      | some v => some v
      | none => s.flight_data
    plan := match u.plan with
      | some v => some v
      | none => s.plan
    error_log := s.error_log ++ u.error_log
    retry_count := match u.retry_count with
      | some v => v
      | none => s.retry_count
    execution_trace := s.execution_trace }

/-- Behaviour of every collaborator of one pipeline run: the per-attempt
flash and pro model calls (the pro call receives the traffic and flight
snapshots its prompt is formatted from), `json.loads`, datetime parsing,
the two provider calls, whether the shared 10 s deadline elapses, and the
clock `get_now`. -/
structure AgentEnv where
  classifyLlm : Nat → Except String String
  reasonLlm : Nat → TrafficMetrics → FlightMetrics → Except String String
  decode : String → Except String JVal
  fromIso : String → Except String Int
  trafficCall : String → String → Except String TrafficMetrics
  flightCall : String → Option Int → Except String FlightMetrics
  fetchTimeout : Bool
  now : Int

/-- The `except Exception` block shared by `node_classify` and
`node_reason`: append the single error string, increment `retry_count`. -/
def failUpd (e : String) (s : SchedulerState) : StateUpdate :=
  { error_log := [e], retry_count := some (s.retry_count + 1) }

/-- `node_classify`: call the flash model, extract the JSON candidate,
decode it, validate a `UserContext`; on success store it (backfilling a
falsy `user_id` from the state) and reset `retry_count`; any failure
appends one error and increments `retry_count`. -/
def node_classify (env : AgentEnv) (attempt : Nat) (s : SchedulerState) :
    StateUpdate :=
  match env.classifyLlm attempt with
  | Except.error e => failUpd e s
  | Except.ok content =>
    let json_str := jsonCandidate content
    match env.decode json_str with
    | Except.error e => failUpd e s
    | Except.ok j =>
      match validateUserContext env.fromIso j with
      | Except.error e => failUpd e s
      | Except.ok result =>
        let result' :=
          if result.user_id = "" then { result with user_id := s.user_id }
          else result
        { user_context := some result', retry_count := some 0 }

/-- Placeholder defaulting of `ctx.origin` in `node_fetch_context`
(Python `or` replaces falsy values — an empty string is replaced). -/
def defaultedOrigin (ctx : UserContext) : String :=
  if ctx.origin = "" then "Current Location" else ctx.origin

/-- Placeholder defaulting of `ctx.destination` in `node_fetch_context`. -/
def defaultedDestination (ctx : UserContext) : String :=
  if ctx.destination = "" then "Airport" else ctx.destination

/-- Placeholder defaulting of `ctx.flight_number` in `node_fetch_context`. -/
def defaultedFlightNum (ctx : UserContext) : String :=
  if ctx.flight_number = "" then "UA1" else ctx.flight_number

/-- `asyncio.wait_for(asyncio.gather(t_task, f_task), timeout=10.0)`:
if the deadline elapses both tasks are cancelled and `TimeoutError`
(whose `str` is empty) propagates; otherwise the first provider exception
propagates and a surviving result is discarded; on double success both
results are returned. -/
def fetchGather (env : AgentEnv) (origin destination flight_num : String)
    (target : Option Int) : Except String (TrafficMetrics × FlightMetrics) :=
  if env.fetchTimeout then Except.error ""
  else
    match env.trafficCall origin destination, env.flightCall flight_num target with
    | Except.error e, _ => Except.error e
    | Except.ok _, Except.error e => Except.error e
    | Except.ok tr, Except.ok fl => Except.ok (tr, fl)

/-- `node_fetch_context`: run both provider lookups under the shared
deadline; on success store both snapshots, on any failure append exactly
one tool-failure message and touch nothing else. -/
def node_fetch_context (env : AgentEnv) (ctx : UserContext) : StateUpdate :=
  match fetchGather env (defaultedOrigin ctx) (defaultedDestination ctx)
      (defaultedFlightNum ctx) ctx.target_arrival_time with
  | Except.ok (traffic, flight) =>
    { traffic_data := some traffic, flight_data := some flight }
  | Except.error e => { error_log := ["Tool Failure: " ++ e] }

/-- The neutral traffic snapshot `node_reason` substitutes when
`traffic_data` is absent. -/
def trafficFallback : TrafficMetrics :=
  { distance_meters := 0, duration_seconds := 0, status := TrafficStatus.clear,
    route_summary := "Fallback" }

/-- The neutral flight snapshot `node_reason` substitutes when
`flight_data` is absent: on time and departing now. -/
def flightFallback (now : Int) : FlightMetrics :=
  { flight_number := "N/A", status := FlightStatus.on_time,
    scheduled_departure := now, estimated_departure := now }

/-- `node_reason`: substitute neutral defaults for missing snapshots, call
the pro model on them, extract the JSON candidate, decode, validate a
`CommutePlan`; on success store the plan and reset `retry_count`; any
failure appends one error and increments `retry_count`. -/
def node_reason (env : AgentEnv) (attempt : Nat) (s : SchedulerState) :
    StateUpdate :=
  let traffic := s.traffic_data.getD trafficFallback
  let flight := s.flight_data.getD (flightFallback env.now)
  match env.reasonLlm attempt traffic flight with
  | Except.error e => failUpd e s
  | Except.ok content =>
    let json_str := jsonCandidate content
    match env.decode json_str with
    | Except.error e => failUpd e s
    | Except.ok j =>
      match validatePlan j with
      | Except.error e => failUpd e s
      | Except.ok p => { plan := some p, retry_count := some 0 }

/-- `edge_check_classification` from `graph.py`. -/
def edge_check_classification (s : SchedulerState) : String :=
  if s.user_context.isSome then "continue"
  else if s.retry_count > 3 then "end"
  else "retry"

/-- `edge_check_reasoning` from `graph.py` (done-but-failed once the
retry ceiling is exceeded). -/
def edge_check_reasoning (s : SchedulerState) : String :=
  if s.plan.isSome then "done"
  else if s.retry_count > 3 then "done"
  else "retry"

/-- One classify superstep: run the node, merge its update. -/
def classifyStep (env : AgentEnv) (k : Nat) (s : SchedulerState) :
    SchedulerState :=
  applyUpdate s (node_classify env k s)

/-- One reason superstep: run the node, merge its update. -/
def reasonStep (env : AgentEnv) (k : Nat) (s : SchedulerState) :
    SchedulerState :=
  applyUpdate s (node_reason env k s)

/-- The classify self-heal loop: re-enter the node while the edge says
retry. `fuel` bounds the supersteps like LangGraph's recursion limit;
`none` models `GraphRecursionError`. -/
def classifyLoopF : Nat → AgentEnv → Nat → SchedulerState →
    Option SchedulerState
  | 0, _, _, _ => none
  | fuel + 1, env, k, s =>
    let s' := classifyStep env k s
    if edge_check_classification s' = "retry" then classifyLoopF fuel env (k + 1) s'
    else some s'

/-- The reason self-heal loop, same shape as `classifyLoopF`. -/
def reasonLoopF : Nat → AgentEnv → Nat → SchedulerState →
    Option SchedulerState
  | 0, _, _, _ => none
  | fuel + 1, env, k, s =>
    let s' := reasonStep env k s
    if edge_check_reasoning s' = "retry" then reasonLoopF fuel env (k + 1) s'
    else some s'

/-- The compiled graph: classify (looping) — on the continue edge (an
`Intent` is present) fetch context once and reason (looping); on the end
edge stop with the classify-stage state. -/
def runPipelineF (fuel : Nat) (env : AgentEnv) (s0 : SchedulerState) :
    Option SchedulerState :=
  match classifyLoopF fuel env 0 s0 with
  | none => none
  | some s1 =>
    match s1.user_context with
    | none => some s1
    | some ctx =>
      let s2 := applyUpdate s1 (node_fetch_context env ctx)
      reasonLoopF fuel env 0 s2

/-- States committed after each classify superstep, in order. -/
def classifyTraceF : Nat → AgentEnv → Nat → SchedulerState →
    List SchedulerState
  | 0, _, _, _ => []
  | fuel + 1, env, k, s =>
    let s' := classifyStep env k s
    if edge_check_classification s' = "retry" then
      s' :: classifyTraceF fuel env (k + 1) s'
    else [s']

/-- States committed after each reason superstep, in order. -/
def reasonTraceF : Nat → AgentEnv → Nat → SchedulerState →
    List SchedulerState
  | 0, _, _, _ => []
  | fuel + 1, env, k, s =>
    let s' := reasonStep env k s
    if edge_check_reasoning s' = "retry" then
      s' :: reasonTraceF fuel env (k + 1) s'
    else [s']

/-- The whole run as the ordered list of committed states, starting from
the initial state, through every classify superstep, then (when the
continue edge fires) the fetch superstep and every reason superstep. -/
def pipelineTraceF (fuel : Nat) (env : AgentEnv) (s0 : SchedulerState) :
    List SchedulerState :=
  (s0 :: classifyTraceF fuel env 0 s0) ++
    (match classifyLoopF fuel env 0 s0 with
     | none => []
     | some s1 =>
       match s1.user_context with
       | none => []
       | some ctx =>
         let s2 := applyUpdate s1 (node_fetch_context env ctx)
         s2 :: reasonTraceF fuel env 0 s2)

/-- Fail-safe snapshot returned by `TrafficClient._get_mock_data` when
anything inside its `try` block raises. -/
def trafficFailSafe : TrafficMetrics :=
  { distance_meters := 0, duration_seconds := 0, traffic_delay_seconds := 0,
    status := TrafficStatus.clear, route_summary := "Unknown (Error)" }

/-- Body of the `try` block of `TrafficClient._get_mock_data`: existence
check, read, `json.loads`, pydantic validation — any step may fail. -/
def trafficMockAttempt (decode : String → Except String JVal)
    (fileContents : Option String) : Except String TrafficMetrics :=
  match fileContents with
  | none => Except.error ("Mock file not found")
  | some content => do
    let j ← decode content
    validateTrafficMetrics j

/-- `TrafficClient._get_mock_data`: total — every internal failure is
caught and replaced by the fail-safe snapshot. -/
def trafficGetMockData (decode : String → Except String JVal)
    (fileContents : Option String) : TrafficMetrics :=
  match trafficMockAttempt decode fileContents with
  | Except.ok m => m
  | Except.error _ => trafficFailSafe

/-- Fail-safe snapshot returned by `FlightClient._get_mock_data` when
anything inside its `try` block raises: on time, departing now. -/
def flightFailSafe (now : Int) (flight_number : String) : FlightMetrics :=
  { flight_number := flight_number, status := FlightStatus.on_time,
    scheduled_departure := now, estimated_departure := now,
    gate := some "N/A", terminal := some "N/A" }

/-- Body of the `try` block of `FlightClient._get_mock_data`: read and
decode the mock file, optionally re-anchor the schedule to `target_date`
keeping the original delay, override the flight number, validate. -/
def flightMockAttempt (decode : String → Except String JVal)
    (fromIso : String → Except String Int) (toIso : Int → String)
    (fileContents : Option String) (flight_number : String)
    (target_date : Option Int) : Except String FlightMetrics :=
  match fileContents with
  | none => Except.error ("No such file or directory")
  | some content => do
    let j ← decode content
    let j2 ← (match target_date with
      | none => Except.ok j
      | some td => do
        let schedV ← j.getFieldE ("scheduled_departure")
        let schedS ← schedV.asStr
        let estV ← j.getFieldE ("estimated_departure")
        let estS ← estV.asStr
        let sched ← fromIso schedS
        let est ← fromIso estS
        let delta := est - sched
        let ja ← j.setFieldE ("scheduled_departure") (JVal.jstr (toIso td))
        ja.setFieldE ("estimated_departure") (JVal.jstr (toIso (td + delta))))
    let j3 ← j2.setFieldE ("flight_number") (JVal.jstr flight_number)
    validateFlightMetrics fromIso j3

/-- `FlightClient._get_mock_data`: total — every internal failure is
caught and replaced by the fail-safe snapshot. -/
def flightGetMockData (decode : String → Except String JVal)
    (fromIso : String → Except String Int) (toIso : Int → String)
    (now : Int) (fileContents : Option String) (flight_number : String)
    (target_date : Option Int) : FlightMetrics :=
  match flightMockAttempt decode fromIso toIso fileContents flight_number
      target_date with
  | Except.ok m => m
  | Except.error _ => flightFailSafe now flight_number

/-- The later state's error log extends the earlier one's by a suffix
(the earlier log is a prefix of the later log). -/
def LogExtends (a b : SchedulerState) : Prop :=
  ∃ t, b.error_log = a.error_log ++ t

/-- The candidate substring described by the spec: the text splits as
`pre ++ out ++ post` where `pre` holds no opening brace (the match starts
at the first one), `post` holds no closing brace (greediness: the match
ends at the last one), and `out` itself is brace-delimited. -/
def SpecGreedyCandidate (cs out : List Char) : Prop :=
  ∃ pre post, cs = pre ++ out ++ post ∧
    (∀ c ∈ pre, c ≠ '\x7b') ∧ (∀ c ∈ post, c ≠ '\x7d') ∧
    out.head? = some '\x7b' ∧ out.getLast? = some '\x7d'


/-- Concrete intent used by the executable scenarios below. -/
def ucDemo : UserContext :=
  { user_id := "u1", origin := "A", destination := "B",
    flight_number := "UA1", target_arrival_time := none }

/-- Concrete intent whose extracted `user_id` is the empty string. -/
def ucDemoEmpty : UserContext :=
  { user_id := "", origin := "A", destination := "B",
    flight_number := "UA1", target_arrival_time := none }

/-- Decoded JSON object for a well-formed intent. -/
def jDemoUC : JVal :=
  JVal.jobj [("user_id", JVal.jstr "u1"), ("origin", JVal.jstr "A"),
    ("destination", JVal.jstr "B"), ("flight_number", JVal.jstr "UA1")]

/-- Decoded JSON object for an intent whose `user_id` is empty. -/
def jDemoUCEmpty : JVal :=
  JVal.jobj [("user_id", JVal.jstr ""), ("origin", JVal.jstr "A"),
    ("destination", JVal.jstr "B"), ("flight_number", JVal.jstr "UA1")]

/-- Decoded JSON object for an intent that omits `user_id` entirely. -/
def jDemoNoId : JVal :=
  JVal.jobj [("origin", JVal.jstr "A"),
    ("destination", JVal.jstr "B"), ("flight_number", JVal.jstr "UA1")]

/-- Decoded JSON object for a well-formed plan. -/
def jDemoPlan : JVal :=
  JVal.jobj [("buffer_minutes_remaining", JVal.jnum 10),
    ("recommended_action", JVal.jstr "wait"), ("reasoning_trace", JVal.jstr "ok")]

/-- The plan `jDemoPlan` validates to. -/
def planDemo : CommutePlan :=
  { buffer_minutes_remaining := 10, recommended_action := DecisionAction.wait,
    reasoning_trace := "ok" }

/-- A concrete traffic snapshot for the provider stub. -/
def trDemo : TrafficMetrics :=
  { distance_meters := 1, duration_seconds := 2,
    status := TrafficStatus.heavy, route_summary := "r" }

/-- A concrete flight snapshot for the provider stub. -/
def flDemo : FlightMetrics :=
  { flight_number := "UA1", status := FlightStatus.on_time,
    scheduled_departure := 0, estimated_departure := 0 }

/-- A fresh initial state as built by the API route. -/
def s0Demo : SchedulerState :=
  { user_id := "u1", raw_query := "go to LAX for UA1", user_context := none,
    traffic_data := none, flight_data := none, plan := none, error_log := [],
    retry_count := 0, execution_trace := [] }

/-- Deterministic stand-in for `json.loads` over the scenario texts. -/
def decodeDemo : String → Except String JVal := fun s =>
  if s = "good" then Except.ok jDemoUC
  else if s = "plan" then Except.ok jDemoPlan
  else if s = "noid" then Except.ok jDemoNoId
  else if s = "emptyid" then Except.ok jDemoUCEmpty
  else Except.error ("Expecting value: line 1 column 1 (char 0)")

/-- Collaborators that all behave: both model calls parse on the first
attempt, both providers answer, no timeout. -/
def envHappy : AgentEnv :=
  { classifyLlm := fun _ => Except.ok "good",
    reasonLlm := fun _ _ _ => Except.ok "plan",
    decode := decodeDemo,
    fromIso := fun _ => Except.error ("Invalid isoformat string"),
    trafficCall := fun _ _ => Except.ok trDemo,
    flightCall := fun _ _ => Except.ok flDemo,
    fetchTimeout := false,
    now := 0 }

/-- Like `envHappy` but the first classify attempt yields unparseable
text and the second a valid object. -/
def envTwoTry : AgentEnv :=
  { envHappy with
    classifyLlm := fun k => if k = 0 then Except.ok "bad answer"
      else Except.ok "good" }

/-- Like `envTwoTry` but the first reason attempt also raises. -/
def envC6x : AgentEnv :=
  { envTwoTry with
    reasonLlm := fun k _ _ => if k = 0 then Except.error "boom"
      else Except.ok "plan" }

/-- Like `envHappy` but the extracted intent object omits `user_id`. -/
def envNoId : AgentEnv :=
  { envHappy with classifyLlm := fun _ => Except.ok "noid" }

/-- Like `envHappy` but the extracted intent object carries an empty
`user_id`. -/
def envEmptyId : AgentEnv :=
  { envHappy with classifyLlm := fun _ => Except.ok "emptyid" }

/-- Like `envHappy` but the traffic provider always raises. -/
def envFetchFail : AgentEnv :=
  { envHappy with trafficCall := fun _ _ => Except.error "API Down" }

/-- Like `envHappy` but every reason-model call raises. -/
def envReasonFail : AgentEnv :=
  { envHappy with reasonLlm := fun _ _ _ => Except.error "boom" }

/-- Like `envHappy` but every classify-model call raises. -/
def envClassifyFail : AgentEnv :=
  { envHappy with classifyLlm := fun _ => Except.error "500 UNAVAILABLE" }

/-- Like `envHappy` but the flight provider always raises while the
traffic provider keeps answering. -/
def envFlightFail : AgentEnv :=
  { envHappy with flightCall := fun _ _ => Except.error "API Down" }

/-- Like `envHappy` but the reason model answers with unparseable text. -/
def envReasonBadText : AgentEnv :=
  { envHappy with reasonLlm := fun _ _ _ => Except.ok "bad answer" }

/-- Like `envHappy` but the reason model answers with an object that is
not a valid plan. -/
def envReasonNoPlan : AgentEnv :=
  { envHappy with reasonLlm := fun _ _ _ => Except.ok "noid" }

/-- The state in which a run under `envClassifyFail` aborts: four failed
classify attempts, no intent, no plan. -/
def fAbortDemo : SchedulerState :=
  { user_id := "u1", raw_query := "go to LAX for UA1", user_context := none,
    traffic_data := none, flight_data := none, plan := none,
    error_log := ["500 UNAVAILABLE", "500 UNAVAILABLE", "500 UNAVAILABLE",
      "500 UNAVAILABLE"],
    retry_count := 4, execution_trace := [] }

theorem LogExtends.rfl' (s : SchedulerState) : LogExtends s s :=
  ⟨[], by simp⟩

theorem LogExtends.trans' {a b c : SchedulerState}
    (h1 : LogExtends a b) (h2 : LogExtends b c) : LogExtends a c := by
  obtain ⟨t1, h1⟩ := h1
  obtain ⟨t2, h2⟩ := h2
  exact ⟨t1 ++ t2, by rw [h2, h1, List.append_assoc]⟩

theorem applyUpdate_error_log (s : SchedulerState) (u : StateUpdate) :
    (applyUpdate s u).error_log = s.error_log ++ u.error_log := rfl

theorem logExtends_applyUpdate (s : SchedulerState) (u : StateUpdate) :
    LogExtends s (applyUpdate s u) :=
  ⟨u.error_log, rfl⟩

theorem applyUpdate_failUpd (s : SchedulerState) (e : String) :
    applyUpdate s (failUpd e s) =
      { s with error_log := s.error_log ++ [e],
               retry_count := s.retry_count + 1 } := rfl

theorem applyUpdate_classifyOk (s : SchedulerState) (uc : UserContext) :
    applyUpdate s { user_context := some uc, retry_count := some 0 } =
      { s with user_context := some uc, retry_count := 0 } := by
  simp [applyUpdate]

theorem applyUpdate_reasonOk (s : SchedulerState) (p : CommutePlan) :
    applyUpdate s { plan := some p, retry_count := some 0 } =
      { s with plan := some p, retry_count := 0 } := by
  simp [applyUpdate]

/-- Edge after classify fires retry exactly on a state with no intent and
retries remaining. -/
theorem edge_class_retry_iff (s : SchedulerState) :
    edge_check_classification s = "retry" ↔
      s.user_context = none ∧ s.retry_count ≤ 3 := by
  unfold edge_check_classification
  rcases h : s.user_context with _ | v
  · by_cases h3 : s.retry_count > 3
    · simp [h, h3]
    · simp [h, h3]
      omega
  · simp [h]

/-- Edge after classify fires continue exactly when an intent is present. -/
theorem edge_class_continue_iff (s : SchedulerState) :
    edge_check_classification s = "continue" ↔ s.user_context.isSome := by
  unfold edge_check_classification
  rcases h : s.user_context with _ | v <;> by_cases h3 : s.retry_count > 3 <;>
    simp [h, h3]

/-- Edge after classify fires end exactly on a state with no intent and
the retry ceiling exceeded. -/
theorem edge_class_end_iff (s : SchedulerState) :
    edge_check_classification s = "end" ↔
      s.user_context = none ∧ 3 < s.retry_count := by
  unfold edge_check_classification
  rcases h : s.user_context with _ | v <;> by_cases h3 : s.retry_count > 3 <;>
    simp [h, h3]

/-- Edge after reason fires retry exactly on a state with no plan and
retries remaining; in every other case it fires done. -/
theorem edge_reason_retry_iff (s : SchedulerState) :
    edge_check_reasoning s = "retry" ↔ s.plan = none ∧ s.retry_count ≤ 3 := by
  unfold edge_check_reasoning
  rcases h : s.plan with _ | v
  · by_cases h3 : s.retry_count > 3
    · simp [h, h3]
    · simp [h, h3]
      omega
  · simp [h]

/-- Edge after reason fires done on a plan, or with no plan once the
retry ceiling is exceeded. -/
theorem edge_reason_done_iff (s : SchedulerState) :
    edge_check_reasoning s = "done" ↔
      s.plan.isSome ∨ 3 < s.retry_count := by
  unfold edge_check_reasoning
  rcases h : s.plan with _ | v <;> by_cases h3 : s.retry_count > 3 <;>
    simp [h, h3]

/-- Every classify node outcome: either the shared failure update carrying
one error, or an intent with the retry counter reset. -/
theorem node_classify_cases (env : AgentEnv) (k : Nat) (s : SchedulerState) :
    (∃ e, node_classify env k s = failUpd e s) ∨
    (∃ uc, node_classify env k s =
      { user_context := some uc, retry_count := some 0 }) := by
  cases hc : env.classifyLlm k with
  | error e => exact Or.inl ⟨e, by simp [node_classify, hc]⟩
  | ok content =>
    cases hd : env.decode (jsonCandidate content) with
    | error e => exact Or.inl ⟨e, by simp [node_classify, hc, hd]⟩
    | ok j =>
      cases hv : validateUserContext env.fromIso j with
      | error e => exact Or.inl ⟨e, by simp [node_classify, hc, hd, hv]⟩
      | ok result =>
        exact Or.inr ⟨if result.user_id = "" then
            { result with user_id := s.user_id } else result,
          by simp [node_classify, hc, hd, hv]⟩

/-- Every reason node outcome: either the shared failure update carrying
one error, or a plan with the retry counter reset. -/
theorem node_reason_cases (env : AgentEnv) (k : Nat) (s : SchedulerState) :
    (∃ e, node_reason env k s = failUpd e s) ∨
    (∃ p, node_reason env k s =
      { plan := some p, retry_count := some 0 }) := by
  cases hc : env.reasonLlm k (s.traffic_data.getD trafficFallback)
      (s.flight_data.getD (flightFallback env.now)) with
  | error e => exact Or.inl ⟨e, by simp [node_reason, hc]⟩
  | ok content =>
    cases hd : env.decode (jsonCandidate content) with
    | error e => exact Or.inl ⟨e, by simp [node_reason, hc, hd]⟩
    | ok j =>
      cases hv : validatePlan j with
      | error e => exact Or.inl ⟨e, by simp [node_reason, hc, hd, hv]⟩
      | ok p => exact Or.inr ⟨p, by simp [node_reason, hc, hd, hv]⟩

/-- A classify superstep either fails (one more error, one more retry,
everything else untouched) or commits an intent and resets the counter. -/
theorem classifyStep_cases (env : AgentEnv) (k : Nat) (s : SchedulerState) :
    (∃ e, classifyStep env k s =
      { s with error_log := s.error_log ++ [e],
               retry_count := s.retry_count + 1 }) ∨
    (∃ uc, classifyStep env k s =
      { s with user_context := some uc, retry_count := 0 }) := by
  rcases node_classify_cases env k s with ⟨e, he⟩ | ⟨uc, huc⟩
  · exact Or.inl ⟨e, by rw [classifyStep, he, applyUpdate_failUpd]⟩
  · exact Or.inr ⟨uc, by rw [classifyStep, huc, applyUpdate_classifyOk]⟩

/-- A reason superstep either fails (one more error, one more retry,
everything else untouched) or commits a plan and resets the counter. -/
theorem reasonStep_cases (env : AgentEnv) (k : Nat) (s : SchedulerState) :
    (∃ e, reasonStep env k s =
      { s with error_log := s.error_log ++ [e],
               retry_count := s.retry_count + 1 }) ∨
    (∃ p, reasonStep env k s =
      { s with plan := some p, retry_count := 0 }) := by
  rcases node_reason_cases env k s with ⟨e, he⟩ | ⟨p, hp⟩
  · exact Or.inl ⟨e, by rw [reasonStep, he, applyUpdate_failUpd]⟩
  · exact Or.inr ⟨p, by rw [reasonStep, hp, applyUpdate_reasonOk]⟩

theorem classifyStep_plan (env : AgentEnv) (k : Nat) (s : SchedulerState) :
    (classifyStep env k s).plan = s.plan := by
  rcases classifyStep_cases env k s with ⟨e, he⟩ | ⟨uc, huc⟩
  · rw [he]
  · rw [huc]

theorem classifyStep_frame (env : AgentEnv) (k : Nat) (s : SchedulerState) :
    (classifyStep env k s).traffic_data = s.traffic_data ∧
    (classifyStep env k s).flight_data = s.flight_data ∧
    LogExtends s (classifyStep env k s) := by
  rcases classifyStep_cases env k s with ⟨e, he⟩ | ⟨uc, huc⟩
  · rw [he]
    exact ⟨rfl, rfl, [e], rfl⟩
  · rw [huc]
    exact ⟨rfl, rfl, [], by simp⟩

theorem reasonStep_frame (env : AgentEnv) (k : Nat) (s : SchedulerState) :
    (reasonStep env k s).user_context = s.user_context ∧
    (reasonStep env k s).traffic_data = s.traffic_data ∧
    (reasonStep env k s).flight_data = s.flight_data ∧
    LogExtends s (reasonStep env k s) := by
  rcases reasonStep_cases env k s with ⟨e, he⟩ | ⟨p, hp⟩
  · rw [he]
    exact ⟨rfl, rfl, rfl, [e], rfl⟩
  · rw [hp]
    exact ⟨rfl, rfl, rfl, [], by simp⟩

theorem applyUpdate_fetchOk (s : SchedulerState) (tr : TrafficMetrics)
    (fl : FlightMetrics) :
    applyUpdate s { traffic_data := some tr, flight_data := some fl } =
      { s with traffic_data := some tr, flight_data := some fl } := by
  simp [applyUpdate]

theorem applyUpdate_fetchFail (s : SchedulerState) (msg : String) :
    applyUpdate s { error_log := [msg] } =
      { s with error_log := s.error_log ++ [msg] } := by
  simp [applyUpdate]

/-- The fetch node either stores both snapshots or appends exactly one
tool-failure message. -/
theorem node_fetch_cases (env : AgentEnv) (ctx : UserContext) :
    (∃ tr fl, node_fetch_context env ctx =
      { traffic_data := some tr, flight_data := some fl }) ∨
    (∃ e, node_fetch_context env ctx =
      { error_log := ["Tool Failure: " ++ e] }) := by
  rcases hf : fetchGather env (defaultedOrigin ctx) (defaultedDestination ctx)
      (defaultedFlightNum ctx) ctx.target_arrival_time with e | ⟨tr, fl⟩
  · exact Or.inr ⟨e, by simp [node_fetch_context, hf]⟩
  · exact Or.inl ⟨tr, fl, by simp [node_fetch_context, hf]⟩

/-- The classify loop reaches an exit edge within the recursion limit:
five supersteps always suffice from a fresh retry counter. -/
theorem classifyLoopF_isSome (env : AgentEnv) :
    ∀ (fuel : Nat) (k : Nat) (s : SchedulerState), 1 ≤ fuel →
      5 ≤ s.retry_count + fuel →
      ∃ s1, classifyLoopF fuel env k s = some s1 := by
  intro fuel
  induction fuel with
  | zero => omega
  | succ m ih =>
    intro k s _ hbound
    by_cases hr : edge_check_classification (classifyStep env k s) = "retry"
    · have hedge := (edge_class_retry_iff _).mp hr
      have hfailstep : (classifyStep env k s).retry_count = s.retry_count + 1 := by
        rcases classifyStep_cases env k s with ⟨e, he⟩ | ⟨uc, huc⟩
        · rw [he]
        · rw [huc] at hedge
          simp at hedge
      obtain ⟨s1, hs1⟩ := ih (k + 1) (classifyStep env k s) (by omega)
        (by omega)
      exact ⟨s1, by simp only [classifyLoopF, hr, if_pos]; exact hs1⟩
    · exact ⟨classifyStep env k s, by simp only [classifyLoopF, hr, if_neg,
        ite_false]⟩

/-- The reason loop reaches an exit edge within the recursion limit:
five supersteps always suffice from a fresh retry counter. -/
theorem reasonLoopF_isSome (env : AgentEnv) :
    ∀ (fuel : Nat) (k : Nat) (s : SchedulerState), 1 ≤ fuel →
      5 ≤ s.retry_count + fuel →
      ∃ f, reasonLoopF fuel env k s = some f := by
  intro fuel
  induction fuel with
  | zero => omega
  | succ m ih =>
    intro k s _ hbound
    by_cases hr : edge_check_reasoning (reasonStep env k s) = "retry"
    · have hedge := (edge_reason_retry_iff _).mp hr
      have hfailstep : (reasonStep env k s).retry_count = s.retry_count + 1 := by
        rcases reasonStep_cases env k s with ⟨e, he⟩ | ⟨p, hp⟩
        · rw [he]
        · rw [hp] at hedge
          simp at hedge
      obtain ⟨f, hf⟩ := ih (k + 1) (reasonStep env k s) (by omega) (by omega)
      exact ⟨f, by simp only [reasonLoopF, hr, if_pos]; exact hf⟩
    · exact ⟨reasonStep env k s, by simp only [reasonLoopF, hr, if_neg,
        ite_false]⟩

/-- Classify-loop invariants: the committed exit state only ever changed
`user_context`, `retry_count` and (append-only) `error_log`, and its edge
is not retry. -/
theorem classifyLoopF_inv (env : AgentEnv) :
    ∀ (fuel : Nat) (k : Nat) (s s1 : SchedulerState),
      classifyLoopF fuel env k s = some s1 →
      s1.plan = s.plan ∧ s1.traffic_data = s.traffic_data ∧
      s1.flight_data = s.flight_data ∧ LogExtends s s1 ∧
      edge_check_classification s1 ≠ "retry" := by
  intro fuel
  induction fuel with
  | zero => intro k s s1 h; simp [classifyLoopF] at h
  | succ m ih =>
    intro k s s1 h
    by_cases hr : edge_check_classification (classifyStep env k s) = "retry"
    · simp only [classifyLoopF, hr, if_pos] at h
      obtain ⟨h1, h2, h3, h4, h5⟩ := ih (k + 1) (classifyStep env k s) s1 h
      obtain ⟨f1, f2, f3⟩ := classifyStep_frame env k s
      exact ⟨h1.trans (classifyStep_plan env k s), h2.trans f1, h3.trans f2,
        f3.trans' h4, h5⟩
    · simp only [classifyLoopF, hr, ite_false] at h
      obtain ⟨f1, f2, f3⟩ := classifyStep_frame env k s
      cases h
      exact ⟨classifyStep_plan env k s, f1, f2, f3, hr⟩

/-- Reason-loop invariants: the committed exit state only ever changed
`plan`, `retry_count` and (append-only) `error_log`, and its edge is not
retry. -/
theorem reasonLoopF_inv (env : AgentEnv) :
    ∀ (fuel : Nat) (k : Nat) (s f : SchedulerState),
      reasonLoopF fuel env k s = some f →
      f.user_context = s.user_context ∧ f.traffic_data = s.traffic_data ∧
      f.flight_data = s.flight_data ∧ LogExtends s f ∧
      edge_check_reasoning f ≠ "retry" := by
  intro fuel
  induction fuel with
  | zero => intro k s f h; simp [reasonLoopF] at h
  | succ m ih =>
    intro k s f h
    by_cases hr : edge_check_reasoning (reasonStep env k s) = "retry"
    · simp only [reasonLoopF, hr, if_pos] at h
      obtain ⟨h1, h2, h3, h4, h5⟩ := ih (k + 1) (reasonStep env k s) f h
      obtain ⟨f1, f2, f3, f4⟩ := reasonStep_frame env k s
      exact ⟨h1.trans f1, h2.trans f2, h3.trans f3, f4.trans' h4, h5⟩
    · simp only [reasonLoopF, hr, ite_false] at h
      obtain ⟨f1, f2, f3, f4⟩ := reasonStep_frame env k s
      cases h
      exact ⟨f1, f2, f3, f4, hr⟩

/-- When the classify loop is entered without an intent and exits on the
continue edge, the finishing superstep was the successful one, so the
retry counter has been reset. -/
theorem classifyLoopF_continue_rc (env : AgentEnv) :
    ∀ (fuel : Nat) (k : Nat) (s s1 : SchedulerState),
      classifyLoopF fuel env k s = some s1 → s.user_context = none →
      s1.user_context.isSome → s1.retry_count = 0 := by
  intro fuel
  induction fuel with
  | zero => intro k s s1 h; simp [classifyLoopF] at h
  | succ m ih =>
    intro k s s1 h hnone hsome
    by_cases hr : edge_check_classification (classifyStep env k s) = "retry"
    · simp only [classifyLoopF, hr, if_pos] at h
      have hnone' : (classifyStep env k s).user_context = none :=
        ((edge_class_retry_iff _).mp hr).1
      exact ih (k + 1) (classifyStep env k s) s1 h hnone' hsome
    · simp only [classifyLoopF, hr, ite_false] at h
      cases h
      rcases classifyStep_cases env k s with ⟨e, he⟩ | ⟨uc, huc⟩
      · rw [he] at hsome
        simp [hnone] at hsome
      · rw [huc]

/-- A reason superstep whose model call raises commits exactly one more
error and one more retry. -/
theorem reasonStep_fail (env : AgentEnv) (k : Nat) (s : SchedulerState)
    (e : String)
    (h : env.reasonLlm k (s.traffic_data.getD trafficFallback)
      (s.flight_data.getD (flightFallback env.now)) = Except.error e) :
    reasonStep env k s =
      { s with error_log := s.error_log ++ [e],
               retry_count := s.retry_count + 1 } := by
  have hn : node_reason env k s = failUpd e s := by
    simp [node_reason, h]
  rw [reasonStep, hn, applyUpdate_failUpd]

/-- Unrolling of the reason loop under an always-failing model: entered
with no plan and `retry_count + n = 4` (`1 ≤ n ≤ fuel`), it terminates
with no plan, the counter at 4, and exactly `n` more errors appended. -/
theorem reasonLoopF_allFail (env : AgentEnv)
    (hfail : ∀ k tr fl, ∃ e, env.reasonLlm k tr fl = Except.error e) :
    ∀ (n fuel k : Nat) (s : SchedulerState), s.plan = none →
      s.retry_count + n = 4 → 1 ≤ n → n ≤ fuel →
      ∃ f es, reasonLoopF fuel env k s = some f ∧ f.plan = none ∧
        f.retry_count = 4 ∧ List.length es = n ∧
        f.error_log = s.error_log ++ es := by
  intro n
  induction n with
  | zero => omega
  | succ n ih =>
    intro fuel k s hplan hrc _ hfuel
    obtain ⟨m, rfl⟩ : ∃ m, fuel = m + 1 := ⟨fuel - 1, by omega⟩
    obtain ⟨e, he⟩ := hfail k (s.traffic_data.getD trafficFallback)
      (s.flight_data.getD (flightFallback env.now))
    have hstep := reasonStep_fail env k s e he
    rcases Nat.eq_zero_or_pos n with hn0 | hn1
    · subst hn0
      have hedge : edge_check_reasoning (reasonStep env k s) ≠ "retry" := by
        intro hcontra
        rw [edge_reason_retry_iff, hstep] at hcontra
        obtain ⟨-, h2⟩ := hcontra
        have h3 : s.retry_count + 1 ≤ 3 := h2
        omega
      refine ⟨reasonStep env k s, [e], ?_, ?_, ?_, rfl, ?_⟩
      · simp only [reasonLoopF, hedge, ite_false]
      · rw [hstep]
        exact hplan
      · rw [hstep]
        show s.retry_count + 1 = 4
        omega
      · rw [hstep]
    · have hedge : edge_check_reasoning (reasonStep env k s) = "retry" := by
        rw [edge_reason_retry_iff, hstep]
        refine ⟨hplan, ?_⟩
        show s.retry_count + 1 ≤ 3
        omega
      obtain ⟨f, es, hloop, hfp, hfr, hlen, hlog⟩ :=
        ih m (k + 1) (reasonStep env k s) (by rw [hstep]; exact hplan)
          (by rw [hstep]; show s.retry_count + 1 + n = 4; omega) hn1 (by omega)
      refine ⟨f, e :: es, ?_, hfp, hfr, by simp [hlen], ?_⟩
      · simp only [reasonLoopF, hedge, if_pos]
        exact hloop
      · rw [hlog, hstep]
        simp

theorem firstBrace_spec :
    ∀ (cs : List Char) (i : Nat), firstBrace cs = some i →
      cs[i]? = some '\x7b' ∧ ∀ k, k < i → cs[k]? ≠ some '\x7b' := by
  intro cs
  induction cs with
  | nil => intro i h; simp [firstBrace] at h
  | cons c cs ih =>
    intro i h
    by_cases hc : c = '\x7b'
    · simp only [firstBrace, hc, if_pos] at h
      cases h
      exact ⟨by simp [hc], by omega⟩
    · simp only [firstBrace, hc, ite_false, Option.map_eq_some'] at h
      obtain ⟨i', hi', rfl⟩ := h
      obtain ⟨h1, h2⟩ := ih i' hi'
      refine ⟨by simpa using h1, ?_⟩
      intro k hk
      cases k with
      | zero => simpa using hc
      | succ k' =>
        rw [List.getElem?_cons_succ]
        exact h2 k' (by omega)

theorem firstBrace_le :
    ∀ (cs : List Char) (i : Nat), cs[i]? = some '\x7b' →
      ∃ i0, firstBrace cs = some i0 ∧ i0 ≤ i := by
  intro cs
  induction cs with
  | nil => intro i h; simp at h
  | cons c cs ih =>
    intro i h
    by_cases hc : c = '\x7b'
    · exact ⟨0, by simp [firstBrace, hc], by omega⟩
    · cases i with
      | zero => simp [hc] at h
      | succ i' =>
        rw [List.getElem?_cons_succ] at h
        obtain ⟨i0, h1, h2⟩ := ih i' h
        exact ⟨i0 + 1, by simp [firstBrace, hc, h1], by omega⟩

theorem lastClose_none :
    ∀ (cs : List Char), lastClose cs = none →
      ∀ k : Nat, cs[k]? ≠ some '\x7d' := by
  intro cs
  induction cs with
  | nil => intro _ k; simp
  | cons c cs ih =>
    intro h k
    have hnone : lastClose cs = none := by
      cases hlc : lastClose cs with
      | none => rfl
      | some j => simp [lastClose, hlc] at h
    have hc : c ≠ '\x7d' := by
      intro hch
      simp [lastClose, hnone, hch] at h
    cases k with
    | zero => simpa using hc
    | succ k' =>
      rw [List.getElem?_cons_succ]
      exact ih hnone k'

theorem lastClose_spec :
    ∀ (cs : List Char) (j : Nat), lastClose cs = some j →
      cs[j]? = some '\x7d' ∧ ∀ k, j < k → cs[k]? ≠ some '\x7d' := by
  intro cs
  induction cs with
  | nil => intro j h; simp [lastClose] at h
  | cons c cs ih =>
    intro j h
    cases hlc : lastClose cs with
    | some j' =>
      simp only [lastClose, hlc] at h
      cases h
      obtain ⟨h1, h2⟩ := ih j' hlc
      refine ⟨by simpa using h1, ?_⟩
      intro k hk
      cases k with
      | zero => omega
      | succ k' =>
        rw [List.getElem?_cons_succ]
        exact h2 k' (by omega)
    | none =>
      by_cases hc : c = '\x7d'
      · simp only [lastClose, hlc, hc, if_pos] at h
        cases h
        refine ⟨by simp [hc], ?_⟩
        intro k hk
        cases k with
        | zero => omega
        | succ k' =>
          rw [List.getElem?_cons_succ]
          exact lastClose_none cs hlc k'
      · simp [lastClose, hlc, hc] at h

theorem lastClose_ge :
    ∀ (cs : List Char) (j : Nat), cs[j]? = some '\x7d' →
      ∃ j0, lastClose cs = some j0 ∧ j ≤ j0 := by
  intro cs
  induction cs with
  | nil => intro j h; simp at h
  | cons c cs ih =>
    intro j h
    cases hlc : lastClose cs with
    | some j' =>
      refine ⟨j' + 1, by simp [lastClose, hlc], ?_⟩
      cases j with
      | zero => omega
      | succ j'' =>
        rw [List.getElem?_cons_succ] at h
        obtain ⟨j0, h1, h2⟩ := ih j'' h
        rw [hlc] at h1
        cases h1
        omega
    | none =>
      cases j with
      | zero =>
        have hc : c = '\x7d' := by simpa using h
        exact ⟨0, by simp [lastClose, hlc, hc], by omega⟩
      | succ j'' =>
        rw [List.getElem?_cons_succ] at h
        exact absurd h (lastClose_none cs hlc j'')

theorem mem_take_getElem :
    ∀ (l : List Char) (n : Nat) (c : Char), c ∈ l.take n →
      ∃ k, k < n ∧ l[k]? = some c := by
  intro l
  induction l with
  | nil => intro n c h; simp at h
  | cons a l ih =>
    intro n c h
    cases n with
    | zero => simp at h
    | succ n' =>
      rw [List.take_succ_cons, List.mem_cons] at h
      rcases h with rfl | h
      · exact ⟨0, by omega, by simp⟩
      · obtain ⟨k, hk, hg⟩ := ih n' c h
        exact ⟨k + 1, by omega, by simpa using hg⟩

theorem mem_drop_getElem :
    ∀ (l : List Char) (n : Nat) (c : Char), c ∈ l.drop n →
      ∃ k, n ≤ k ∧ l[k]? = some c := by
  intro l
  induction l with
  | nil => intro n c h; simp at h
  | cons a l ih =>
    intro n c h
    cases n with
    | zero =>
      rw [List.drop_zero] at h
      obtain ⟨k, hk⟩ := List.mem_iff_getElem?.mp h
      exact ⟨k, by omega, hk⟩
    | succ n' =>
      rw [List.drop_succ_cons] at h
      obtain ⟨k, hk, hg⟩ := ih n' c h
      exact ⟨k + 1, by omega, by simpa using hg⟩

/-- Whenever the text has an opening brace followed (strictly later) by a
closing brace, the shared extraction step returns exactly the spec's
greedy candidate: from the first opening brace to the last closing one. -/
theorem jsonCandidate_match (content : String)
    (h : ∃ i j : Nat, i < j ∧ content.toList[i]? = some '\x7b' ∧
      content.toList[j]? = some '\x7d') :
    SpecGreedyCandidate content.toList (jsonCandidate content).toList := by
  obtain ⟨i, j, hij, hi, hj⟩ := h
  obtain ⟨i0, hfb, hi0⟩ := firstBrace_le content.toList i hi
  obtain ⟨j0, hlc, hj0⟩ := lastClose_ge content.toList j hj
  have hi0j0 : i0 < j0 := by omega
  have hfb' : firstBrace content.data = some i0 := hfb
  have hlc' : lastClose content.data = some j0 := hlc
  have hjson : jsonCandidate content =
      String.mk ((content.toList.drop i0).take (j0 + 1 - i0)) := by
    simp [jsonCandidate, hfb', hlc', hi0j0]
  rw [hjson]
  show SpecGreedyCandidate content.toList
    ((content.toList.drop i0).take (j0 + 1 - i0))
  obtain ⟨hbi, hmini⟩ := firstBrace_spec content.toList i0 hfb
  obtain ⟨hbj, hmaxj⟩ := lastClose_spec content.toList j0 hlc
  have hj0len : j0 < content.toList.length := (List.getElem?_eq_some.mp hbj).1
  refine ⟨content.toList.take i0, content.toList.drop (j0 + 1), ?_, ?_, ?_, ?_, ?_⟩
  · have hdd : (content.toList.drop i0).drop (j0 + 1 - i0) =
        content.toList.drop (j0 + 1) := by
      rw [List.drop_drop]
      congr 1
      omega
    rw [← hdd, List.append_assoc, List.take_append_drop, List.take_append_drop]
  · intro c hc
    obtain ⟨k, hk, hg⟩ := mem_take_getElem content.toList i0 c hc
    intro hcontra
    exact hmini k hk (by rw [← hcontra]; exact hg)
  · intro c hc
    obtain ⟨k, hk, hg⟩ := mem_drop_getElem content.toList (j0 + 1) c hc
    intro hcontra
    exact hmaxj k (by omega) (by rw [← hcontra]; exact hg)
  · rw [List.head?_eq_getElem?, List.getElem?_take_of_lt (by omega),
      List.getElem?_drop]
    simpa using hbi
  · have hlen : ((content.toList.drop i0).take (j0 + 1 - i0)).length =
        j0 + 1 - i0 := by
      rw [List.length_take, List.length_drop]
      omega
    rw [List.getLast?_eq_getElem?, hlen,
      List.getElem?_take_of_lt (by omega), List.getElem?_drop]
    have : i0 + (j0 + 1 - i0 - 1) = j0 := by omega
    rw [this]
    exact hbj

/-- When no opening brace is followed by a closing brace, the regex has no
match and the extraction step returns the whole text unchanged. -/
theorem jsonCandidate_fallback (content : String)
    (h : ¬ ∃ i j : Nat, i < j ∧ content.toList[i]? = some '\x7b' ∧
      content.toList[j]? = some '\x7d') :
    jsonCandidate content = content := by
  cases hfb : firstBrace content.data with
  | none => simp [jsonCandidate, hfb]
  | some i0 =>
    cases hlc : lastClose content.data with
    | none => simp [jsonCandidate, hfb, hlc]
    | some j0 =>
      have hni : ¬ i0 < j0 := by
        intro hcontra
        exact h ⟨i0, j0, hcontra,
          (firstBrace_spec content.toList i0 hfb).1,
          (lastClose_spec content.toList j0 hlc).1⟩
      simp [jsonCandidate, hfb, hlc, hni]

theorem classifyTraceF_head (env : AgentEnv) (m k : Nat) (s : SchedulerState) :
    (classifyTraceF (m + 1) env k s).head? = some (classifyStep env k s) := by
  by_cases hr : edge_check_classification (classifyStep env k s) = "retry" <;>
    simp [classifyTraceF, hr]

theorem reasonTraceF_head (env : AgentEnv) (m k : Nat) (s : SchedulerState) :
    (reasonTraceF (m + 1) env k s).head? = some (reasonStep env k s) := by
  by_cases hr : edge_check_reasoning (reasonStep env k s) = "retry" <;>
    simp [reasonTraceF, hr]

theorem classifyTraceF_chain (env : AgentEnv) :
    ∀ (fuel k : Nat) (s : SchedulerState),
      List.Chain' LogExtends (classifyTraceF fuel env k s) := by
  intro fuel
  induction fuel with
  | zero => intro k s; simp [classifyTraceF]
  | succ m ih =>
    intro k s
    by_cases hr : edge_check_classification (classifyStep env k s) = "retry"
    · simp only [classifyTraceF, hr, if_pos]
      rw [List.chain'_cons']
      refine ⟨?_, ih (k + 1) (classifyStep env k s)⟩
      intro b hb
      cases m with
      | zero => simp [classifyTraceF] at hb
      | succ m' =>
        rw [classifyTraceF_head, Option.mem_some_iff] at hb
        rw [← hb]
        exact (classifyStep_frame env (k + 1) (classifyStep env k s)).2.2
    · simp only [classifyTraceF, hr, ite_false]
      exact List.chain'_singleton _

theorem reasonTraceF_chain (env : AgentEnv) :
    ∀ (fuel k : Nat) (s : SchedulerState),
      List.Chain' LogExtends (reasonTraceF fuel env k s) := by
  intro fuel
  induction fuel with
  | zero => intro k s; simp [reasonTraceF]
  | succ m ih =>
    intro k s
    by_cases hr : edge_check_reasoning (reasonStep env k s) = "retry"
    · simp only [reasonTraceF, hr, if_pos]
      rw [List.chain'_cons']
      refine ⟨?_, ih (k + 1) (reasonStep env k s)⟩
      intro b hb
      cases m with
      | zero => simp [reasonTraceF] at hb
      | succ m' =>
        rw [reasonTraceF_head, Option.mem_some_iff] at hb
        rw [← hb]
        exact (reasonStep_frame env (k + 1) (reasonStep env k s)).2.2.2
    · simp only [reasonTraceF, hr, ite_false]
      exact List.chain'_singleton _

theorem classifyTraceF_last (env : AgentEnv) :
    ∀ (fuel k : Nat) (s s1 : SchedulerState),
      classifyLoopF fuel env k s = some s1 →
      (classifyTraceF fuel env k s).getLast? = some s1 := by
  intro fuel
  induction fuel with
  | zero => intro k s s1 h; simp [classifyLoopF] at h
  | succ m ih =>
    intro k s s1 h
    by_cases hr : edge_check_classification (classifyStep env k s) = "retry"
    · simp only [classifyLoopF, hr, if_pos] at h
      simp only [classifyTraceF, hr, if_pos]
      have hih := ih (k + 1) (classifyStep env k s) s1 h
      cases hrest : classifyTraceF m env (k + 1) (classifyStep env k s) with
      | nil => rw [hrest] at hih; simp at hih
      | cons a t =>
        rw [hrest] at hih
        rw [List.getLast?_cons_cons]
        exact hih
    · simp only [classifyLoopF, hr, ite_false] at h
      simp only [classifyTraceF, hr, ite_false]
      cases h
      rfl

theorem classifyLoopF_exit_first (env : AgentEnv) (m k : Nat)
    (s : SchedulerState)
    (h : edge_check_classification (classifyStep env k s) ≠ "retry") :
    classifyLoopF (m + 1) env k s = some (classifyStep env k s) := by
  simp only [classifyLoopF, h, ite_false]

theorem reasonLoopF_exit_first (env : AgentEnv) (m k : Nat)
    (s : SchedulerState)
    (h : edge_check_reasoning (reasonStep env k s) ≠ "retry") :
    reasonLoopF (m + 1) env k s = some (reasonStep env k s) := by
  simp only [reasonLoopF, h, ite_false]

theorem classifyLoopF_retry_first (env : AgentEnv) (m k : Nat)
    (s : SchedulerState)
    (h : edge_check_classification (classifyStep env k s) = "retry") :
    classifyLoopF (m + 1) env k s =
      classifyLoopF m env (k + 1) (classifyStep env k s) := by
  simp only [classifyLoopF, h, if_pos]

theorem runPipelineF_eq (fuel : Nat) (env : AgentEnv)
    (s0 s1 : SchedulerState)
    (hcl : classifyLoopF fuel env 0 s0 = some s1) :
    runPipelineF fuel env s0 =
      match s1.user_context with
      | none => some s1
      | some ctx =>
        reasonLoopF fuel env 0 (applyUpdate s1 (node_fetch_context env ctx)) := by
  unfold runPipelineF
  rw [hcl]

theorem runPipelineF_abort (fuel : Nat) (env : AgentEnv)
    (s0 s1 : SchedulerState)
    (hcl : classifyLoopF fuel env 0 s0 = some s1)
    (huc : s1.user_context = none) :
    runPipelineF fuel env s0 = some s1 := by
  rw [runPipelineF_eq fuel env s0 s1 hcl, huc]

theorem runPipelineF_go (fuel : Nat) (env : AgentEnv)
    (s0 s1 : SchedulerState) (ctx : UserContext)
    (hcl : classifyLoopF fuel env 0 s0 = some s1)
    (huc : s1.user_context = some ctx) :
    runPipelineF fuel env s0 =
      reasonLoopF fuel env 0 (applyUpdate s1 (node_fetch_context env ctx)) := by
  rw [runPipelineF_eq fuel env s0 s1 hcl, huc]

/-- The fetch superstep never touches intent, plan or the retry counter. -/
theorem fetch_apply_frame (env : AgentEnv) (ctx : UserContext)
    (s : SchedulerState) :
    (applyUpdate s (node_fetch_context env ctx)).user_context = s.user_context ∧
    (applyUpdate s (node_fetch_context env ctx)).plan = s.plan ∧
    (applyUpdate s (node_fetch_context env ctx)).retry_count = s.retry_count := by
  rcases node_fetch_cases env ctx with ⟨tr, fl, h⟩ | ⟨e, h⟩ <;> rw [h] <;>
    exact ⟨rfl, rfl, rfl⟩

theorem pipelineTraceF_dead (fuel : Nat) (env : AgentEnv) (s0 : SchedulerState)
    (hcl : classifyLoopF fuel env 0 s0 = none) :
    pipelineTraceF fuel env s0 = s0 :: classifyTraceF fuel env 0 s0 := by
  unfold pipelineTraceF
  rw [hcl]
  simp

theorem pipelineTraceF_stop (fuel : Nat) (env : AgentEnv)
    (s0 s1 : SchedulerState)
    (hcl : classifyLoopF fuel env 0 s0 = some s1)
    (huc : s1.user_context = none) :
    pipelineTraceF fuel env s0 = s0 :: classifyTraceF fuel env 0 s0 := by
  unfold pipelineTraceF
  rw [hcl]
  simp [huc]

theorem pipelineTraceF_go (fuel : Nat) (env : AgentEnv)
    (s0 s1 : SchedulerState) (ctx : UserContext)
    (hcl : classifyLoopF fuel env 0 s0 = some s1)
    (huc : s1.user_context = some ctx) :
    pipelineTraceF fuel env s0 =
      (s0 :: classifyTraceF fuel env 0 s0) ++
        (applyUpdate s1 (node_fetch_context env ctx) ::
          reasonTraceF fuel env 0 (applyUpdate s1 (node_fetch_context env ctx))) := by
  unfold pipelineTraceF
  rw [hcl]
  simp [huc]

theorem chain_front (env : AgentEnv) (fuel k : Nat) (s : SchedulerState) :
    List.Chain' LogExtends (s :: classifyTraceF fuel env k s) := by
  rw [List.chain'_cons']
  refine ⟨?_, classifyTraceF_chain env fuel k s⟩
  intro b hb
  cases fuel with
  | zero => simp [classifyTraceF] at hb
  | succ m =>
    rw [classifyTraceF_head, Option.mem_some_iff] at hb
    rw [← hb]
    exact (classifyStep_frame env k s).2.2

/-- C4: every node update can only append to `error_log` (the
`operator.add` channel concatenates the update's entries after the
existing ones), so along the ordered list of states committed by a run,
each state's log extends the previous one's by a suffix — the log never
shrinks and existing entries are never reordered or replaced. -/
theorem c4_error_log_append_only (fuel : Nat) (env : AgentEnv)
    (s0 : SchedulerState) :
    (∀ (s : SchedulerState) (u : StateUpdate),
      (applyUpdate s u).error_log = s.error_log ++ u.error_log) ∧
    List.Chain' LogExtends (pipelineTraceF fuel env s0) := by
  refine ⟨fun s u => rfl, ?_⟩
  cases hcl : classifyLoopF fuel env 0 s0 with
  | none =>
    rw [pipelineTraceF_dead fuel env s0 hcl]
    exact chain_front env fuel 0 s0
  | some s1 =>
    cases huc : s1.user_context with
    | none =>
      rw [pipelineTraceF_stop fuel env s0 s1 hcl huc]
      exact chain_front env fuel 0 s0
    | some ctx =>
      rw [pipelineTraceF_go fuel env s0 s1 ctx hcl huc]
      rw [List.chain'_append]
      refine ⟨chain_front env fuel 0 s0, ?_, ?_⟩
      · rw [List.chain'_cons']
        refine ⟨?_, reasonTraceF_chain env fuel 0 _⟩
        intro b hb
        cases fuel with
        | zero => simp [classifyLoopF] at hcl
        | succ m =>
          rw [reasonTraceF_head, Option.mem_some_iff] at hb
          rw [← hb]
          exact (reasonStep_frame env 0 _).2.2.2
      · intro x hx y hy
        simp only [List.head?_cons, Option.mem_some_iff] at hy
        have hlast := classifyTraceF_last env fuel 0 s0 s1 hcl
        cases hct : classifyTraceF fuel env 0 s0 with
        | nil =>
          rw [hct] at hlast
          simp at hlast
        | cons a t =>
          rw [hct] at hlast hx
          rw [List.getLast?_cons_cons, hlast, Option.mem_some_iff] at hx
          rw [← hx, ← hy]
          exact logExtends_applyUpdate s1 _

/-- C1: when every Reason attempt fails, a run entering the Reason stage
with no plan and a fresh retry counter still terminates: after exactly
four failing supersteps (each appending one error and incrementing
`retry_count`) the reasoning edge yields done even though no plan exists,
and the final state has no plan and at least four logged errors. -/
theorem c1_reason_exhaustion_terminates (env : AgentEnv)
    (s : SchedulerState) (fuel : Nat)
    (hfail : ∀ (k : Nat) (tr : TrafficMetrics) (fl : FlightMetrics),
      ∃ e, env.reasonLlm k tr fl = Except.error e)
    (hplan : s.plan = none) (hrc : s.retry_count = 0) (hfuel : 4 ≤ fuel) :
    ∃ f es, reasonLoopF fuel env 0 s = some f ∧ f.plan = none ∧
      f.retry_count = 4 ∧ List.length es = 4 ∧
      f.error_log = s.error_log ++ es ∧ 4 ≤ f.error_log.length ∧
      edge_check_reasoning f = "done" := by
  obtain ⟨f, es, h1, h2, h3, h4, h5⟩ :=
    reasonLoopF_allFail env hfail 4 fuel 0 s hplan (by omega) (by omega) hfuel
  refine ⟨f, es, h1, h2, h3, h4, h5, ?_, ?_⟩
  · rw [h5, List.length_append, h4]
    omega
  · rw [edge_reason_done_iff]
    right
    omega

/-- Witness for C1 at a concrete always-failing reason model. -/
theorem c1_witness :
    ∃ f es, reasonLoopF 25 envReasonFail 0 s0Demo = some f ∧ f.plan = none ∧
      f.retry_count = 4 ∧ List.length es = 4 ∧
      f.error_log = s0Demo.error_log ++ es ∧ 4 ≤ f.error_log.length ∧
      edge_check_reasoning f = "done" :=
  c1_reason_exhaustion_terminates envReasonFail s0Demo 25
    (fun _ _ _ => ⟨"boom", rfl⟩) rfl rfl (by omega)

/-- C8: the pipeline is a pure function of the collaborator behaviour and
the initial state — two runs with identical collaborators and identical
initial states commit identical final states, and in particular identical
plans; the orchestration core introduces no nondeterminism of its own. -/
theorem c8_pipeline_deterministic (env1 env2 : AgentEnv)
    (s1 s2 : SchedulerState) (fuel : Nat)
    (henv : env1 = env2) (hs : s1 = s2) :
    runPipelineF fuel env1 s1 = runPipelineF fuel env2 s2 ∧
    (runPipelineF fuel env1 s1).map SchedulerState.plan =
      (runPipelineF fuel env2 s2).map SchedulerState.plan := by
  subst henv
  subst hs
  exact ⟨rfl, rfl⟩

/-- Witness for C8 at a concrete environment and state. -/
theorem c8_witness :
    runPipelineF 25 envHappy s0Demo = runPipelineF 25 envHappy s0Demo ∧
    (runPipelineF 25 envHappy s0Demo).map SchedulerState.plan =
      (runPipelineF 25 envHappy s0Demo).map SchedulerState.plan :=
  c8_pipeline_deterministic envHappy envHappy s0Demo s0Demo 25 rfl rfl

/-- C9: whenever the joined fetch fails — including a timeout or a single
provider failing while the other returns a snapshot, whose result is then
discarded — the fetch node's update touches only `error_log`, with exactly
one tool-failure entry: both snapshot fields stay absent and merging the
update changes no other state field. -/
theorem c9_fetch_failure_frame (env : AgentEnv) (ctx : UserContext)
    (e : String)
    (hfail : fetchGather env (defaultedOrigin ctx) (defaultedDestination ctx)
      (defaultedFlightNum ctx) ctx.target_arrival_time = Except.error e) :
    node_fetch_context env ctx =
      ({ error_log := ["Tool Failure: " ++ e] } : StateUpdate) ∧
    (∀ s : SchedulerState, applyUpdate s (node_fetch_context env ctx) =
      { s with error_log := s.error_log ++ ["Tool Failure: " ++ e] }) ∧
    (∀ (o d f : String) (t : Option Int) (tr : TrafficMetrics) (e2 : String),
      env.fetchTimeout = false → env.trafficCall o d = Except.ok tr →
      env.flightCall f t = Except.error e2 →
      fetchGather env o d f t = Except.error e2) := by
  have hn : node_fetch_context env ctx =
      ({ error_log := ["Tool Failure: " ++ e] } : StateUpdate) := by
    simp [node_fetch_context, hfail]
  refine ⟨hn, ?_, ?_⟩
  · intro s
    rw [hn, applyUpdate_fetchFail]
  · intro o d f t tr e2 ht htr hfl
    simp [fetchGather, ht, htr, hfl]

/-- Witness for C9: the flight provider raises while the traffic provider
answers; the surviving traffic snapshot is discarded. -/
theorem c9_witness :
    node_fetch_context envFlightFail ucDemo =
      ({ error_log := ["Tool Failure: " ++ "API Down"] } : StateUpdate) ∧
    applyUpdate s0Demo (node_fetch_context envFlightFail ucDemo) =
      { s0Demo with error_log := s0Demo.error_log ++ ["Tool Failure: " ++ "API Down"] } ∧
    fetchGather envFlightFail "A" "B" "UA1" none = Except.error "API Down" := by
  obtain ⟨h1, h2, h3⟩ := c9_fetch_failure_frame envFlightFail ucDemo "API Down" rfl
  exact ⟨h1, h2 s0Demo, h3 "A" "B" "UA1" none trDemo "API Down" rfl rfl rfl⟩

/-- C3: the classification edge returns continue exactly when an intent is
present, end exactly when no intent is present and the retry ceiling is
exceeded, and retry in all remaining cases; a run that aborts through the
end edge terminates with neither intent nor plan in its final state. -/
theorem c3_classification_edge (s : SchedulerState) (env : AgentEnv)
    (fuel : Nat) (s0 f : SchedulerState) (hplan0 : s0.plan = none)
    (hrun : runPipelineF fuel env s0 = some f) :
    (edge_check_classification s = "continue" ↔ s.user_context.isSome) ∧
    (s.user_context = none →
      (edge_check_classification s = "end" ↔ 3 < s.retry_count)) ∧
    (s.user_context = none → s.retry_count ≤ 3 →
      edge_check_classification s = "retry") ∧
    (edge_check_classification f = "end" →
      f.user_context = none ∧ f.plan = none) := by
  refine ⟨edge_class_continue_iff s, ?_, ?_, ?_⟩
  · intro hnone
    rw [edge_class_end_iff]
    simp [hnone]
  · intro hnone hle
    rw [edge_class_retry_iff]
    exact ⟨hnone, hle⟩
  · intro hend
    cases hcl : classifyLoopF fuel env 0 s0 with
    | none =>
      exfalso
      unfold runPipelineF at hrun
      rw [hcl] at hrun
      simp at hrun
    | some s1 =>
      cases huc : s1.user_context with
      | none =>
        have habort := runPipelineF_abort fuel env s0 s1 hcl huc
        rw [habort] at hrun
        injection hrun with hinj
        subst hinj
        obtain ⟨hp, -, -, -, -⟩ := classifyLoopF_inv env fuel 0 s0 s1 hcl
        exact ⟨huc, by rw [hp, hplan0]⟩
      | some ctx =>
        exfalso
        have hgo := runPipelineF_go fuel env s0 s1 ctx hcl huc
        rw [hgo] at hrun
        obtain ⟨hu, -, -, -, -⟩ := reasonLoopF_inv env fuel 0 _ f hrun
        have hfsome : f.user_context = some ctx := by
          rw [hu, (fetch_apply_frame env ctx s1).1, huc]
        rw [edge_class_end_iff, hfsome] at hend
        simp at hend

/-- Witness for C3: a run whose classify model always raises aborts with
neither intent nor plan. -/
theorem c3_witness :
    (edge_check_classification s0Demo = "continue" ↔
      s0Demo.user_context.isSome) ∧
    (edge_check_classification s0Demo = "end" ↔ 3 < s0Demo.retry_count) ∧
    edge_check_classification s0Demo = "retry" ∧
    (fAbortDemo.user_context = none ∧ fAbortDemo.plan = none) := by
  have h := c3_classification_edge s0Demo envClassifyFail 25 s0Demo fAbortDemo
    rfl (by decide)
  exact ⟨h.1, h.2.1 rfl, h.2.2.1 rfl (by decide), h.2.2.2 (by decide)⟩

/-- C2: if the joined fetch fails (a provider raising or the shared
deadline elapsing), the stage does not raise: it appends exactly one
tool-failure message, leaves both snapshots absent, and the run still
proceeds to Reason, which substitutes the neutral default snapshots and
can still commit a plan. -/
theorem c2_fetch_graceful_degradation (env : AgentEnv) (s0 : SchedulerState)
    (fuel : Nat) (c0 cr : String) (j0 jr : JVal) (uc : UserContext)
    (p : CommutePlan) (e : String)
    (hfuel : 1 ≤ fuel)
    (hs_tr : s0.traffic_data = none) (hs_fl : s0.flight_data = none)
    (hc : env.classifyLlm 0 = Except.ok c0)
    (hd : env.decode (jsonCandidate c0) = Except.ok j0)
    (hv : validateUserContext env.fromIso j0 = Except.ok uc)
    (huid : uc.user_id ≠ "")
    (hfail : ∀ (o d fl : String) (t : Option Int),
      fetchGather env o d fl t = Except.error e)
    (hr : env.reasonLlm 0 trafficFallback (flightFallback env.now) =
      Except.ok cr)
    (hrd : env.decode (jsonCandidate cr) = Except.ok jr)
    (hrv : validatePlan jr = Except.ok p) :
    ∃ f, runPipelineF fuel env s0 = some f ∧ f.traffic_data = none ∧
      f.flight_data = none ∧ f.plan = some p ∧ f.user_context = some uc ∧
      f.error_log = s0.error_log ++ ["Tool Failure: " ++ e] := by
  obtain ⟨m, rfl⟩ : ∃ m, fuel = m + 1 := ⟨fuel - 1, by omega⟩
  have hn : node_classify env 0 s0 = { user_context := some uc, retry_count := some 0 } := by
    simp [node_classify, hc, hd, hv, huid]
  have hs1 : classifyStep env 0 s0 = { s0 with user_context := some uc, retry_count := 0 } := by
    rw [classifyStep, hn, applyUpdate_classifyOk]
  have hedge1 : edge_check_classification (classifyStep env 0 s0) ≠ "retry" := by
    rw [hs1]
    intro hcontra
    rw [edge_class_retry_iff] at hcontra
    have h2 : (some uc : Option UserContext) = none := hcontra.1
    exact Option.noConfusion h2
  have hcl : classifyLoopF (m + 1) env 0 s0 = some (classifyStep env 0 s0) :=
    classifyLoopF_exit_first env m 0 s0 hedge1
  rw [hs1] at hcl
  have hgo := runPipelineF_go (m + 1) env s0 { s0 with user_context := some uc, retry_count := 0 } uc hcl rfl
  have hnf : node_fetch_context env uc = ({ error_log := ["Tool Failure: " ++ e] } : StateUpdate) := by
    simp [node_fetch_context, hfail]
  have hs2 : applyUpdate { s0 with user_context := some uc, retry_count := 0 } (node_fetch_context env uc) = { s0 with user_context := some uc, retry_count := 0, error_log := s0.error_log ++ ["Tool Failure: " ++ e] } := by
    rw [hnf, applyUpdate_fetchFail]
  rw [hs2] at hgo
  have hrn : node_reason env 0 { s0 with user_context := some uc, retry_count := 0, error_log := s0.error_log ++ ["Tool Failure: " ++ e] } = { plan := some p, retry_count := some 0 } := by
    simp [node_reason, hs_tr, hs_fl, hr, hrd, hrv]
  have hs3 : reasonStep env 0 { s0 with user_context := some uc, retry_count := 0, error_log := s0.error_log ++ ["Tool Failure: " ++ e] } = { s0 with user_context := some uc, retry_count := 0, error_log := s0.error_log ++ ["Tool Failure: " ++ e], plan := some p } := by
    rw [reasonStep, hrn, applyUpdate_reasonOk]
  have hedge3 : edge_check_reasoning (reasonStep env 0 { s0 with user_context := some uc, retry_count := 0, error_log := s0.error_log ++ ["Tool Failure: " ++ e] }) ≠ "retry" := by
    rw [hs3]
    intro hcontra
    rw [edge_reason_retry_iff] at hcontra
    have h2 : (some p : Option CommutePlan) = none := hcontra.1
    exact Option.noConfusion h2
  have hrl : reasonLoopF (m + 1) env 0 { s0 with user_context := some uc, retry_count := 0, error_log := s0.error_log ++ ["Tool Failure: " ++ e] } = some (reasonStep env 0 { s0 with user_context := some uc, retry_count := 0, error_log := s0.error_log ++ ["Tool Failure: " ++ e] }) :=
    reasonLoopF_exit_first env m 0 _ hedge3
  rw [hs3] at hrl
  refine ⟨{ s0 with user_context := some uc, retry_count := 0, error_log := s0.error_log ++ ["Tool Failure: " ++ e], plan := some p }, ?_, hs_tr, hs_fl, rfl, rfl, rfl⟩
  rw [hgo, hrl]

/-- Witness for C2: the traffic provider raises, yet the run commits the
demo plan with one tool-failure entry and no snapshots. -/
theorem c2_witness :
    ∃ f, runPipelineF 25 envFetchFail s0Demo = some f ∧
      f.traffic_data = none ∧ f.flight_data = none ∧
      f.plan = some planDemo ∧ f.user_context = some ucDemo ∧
      f.error_log = s0Demo.error_log ++ ["Tool Failure: " ++ "API Down"] :=
  c2_fetch_graceful_degradation envFetchFail s0Demo 25 ("good") ("plan")
    jDemoUC jDemoPlan ucDemo planDemo ("API Down") (by omega) rfl rfl rfl rfl
    rfl (by decide) (fun o d fl t => rfl) rfl rfl rfl

/-- C6 counterexample: a run whose Classify first attempt is unparseable
and whose second attempt is valid, but whose Reason stage also fails once,
ends with the intent set and two error-log entries — not exactly one, so
the claim is false for the whole-run final state. -/
theorem c6_counterexample :
    envC6x.classifyLlm 0 = Except.ok ("bad answer") ∧
    envC6x.decode (jsonCandidate ("bad answer")) =
      Except.error ("Expecting value: line 1 column 1 (char 0)") ∧
    envC6x.classifyLlm 1 = Except.ok ("good") ∧
    validateUserContext envC6x.fromIso jDemoUC = Except.ok ucDemo ∧
    (runPipelineF 25 envC6x s0Demo).map
      (fun f => (f.user_context.isSome, f.retry_count, f.error_log.length)) =
      some (true, 0, 2) :=
  ⟨rfl, rfl, rfl, rfl, by decide⟩

/-- C6 amended: when Classify's first attempt yields unparseable text and
its second a valid object, the state committed at the end of the Classify
stage — the one handed to FetchContext — has the intent set, retry count
reset to 0, and exactly one error-log entry; the whole-run final state
keeps exactly one entry only if FetchContext and Reason append none. -/
theorem c6_classify_retry_recovery (env : AgentEnv) (s0 : SchedulerState)
    (fuel : Nat) (c0 c1 e0 : String) (j1 : JVal) (uc : UserContext)
    (hfuel : 2 ≤ fuel)
    (hs_uc : s0.user_context = none) (hs_rc : s0.retry_count = 0)
    (hs_log : s0.error_log = [])
    (h00 : env.classifyLlm 0 = Except.ok c0)
    (h01 : env.decode (jsonCandidate c0) = Except.error e0)
    (h10 : env.classifyLlm 1 = Except.ok c1)
    (h11 : env.decode (jsonCandidate c1) = Except.ok j1)
    (h12 : validateUserContext env.fromIso j1 = Except.ok uc)
    (huid : uc.user_id ≠ "") :
    ∃ s1, classifyLoopF fuel env 0 s0 = some s1 ∧
      s1.user_context = some uc ∧ s1.retry_count = 0 ∧
      s1.error_log = [e0] := by
  obtain ⟨m, rfl⟩ : ∃ m, fuel = m + 2 := ⟨fuel - 2, by omega⟩
  have hn0 : node_classify env 0 s0 = failUpd e0 s0 := by
    simp [node_classify, h00, h01]
  have hstep0 : classifyStep env 0 s0 = { s0 with error_log := s0.error_log ++ [e0], retry_count := s0.retry_count + 1 } := by
    rw [classifyStep, hn0, applyUpdate_failUpd]
  have hedge0 : edge_check_classification (classifyStep env 0 s0) = "retry" := by
    rw [hstep0, edge_class_retry_iff]
    refine ⟨hs_uc, ?_⟩
    show s0.retry_count + 1 ≤ 3
    omega
  have hloop : classifyLoopF (m + 2) env 0 s0 =
      classifyLoopF (m + 1) env 1 (classifyStep env 0 s0) :=
    classifyLoopF_retry_first env (m + 1) 0 s0 hedge0
  have hn1 : node_classify env 1 (classifyStep env 0 s0) =
      { user_context := some uc, retry_count := some 0 } := by
    simp [node_classify, h10, h11, h12, huid]
  have hstep1 : classifyStep env 1 (classifyStep env 0 s0) = { classifyStep env 0 s0 with user_context := some uc, retry_count := 0 } := by
    rw [classifyStep, hn1, applyUpdate_classifyOk]
  have hedge1 : edge_check_classification
      (classifyStep env 1 (classifyStep env 0 s0)) ≠ "retry" := by
    rw [hstep1]
    intro hcontra
    rw [edge_class_retry_iff] at hcontra
    have h2 : (some uc : Option UserContext) = none := hcontra.1
    exact Option.noConfusion h2
  have hexit : classifyLoopF (m + 1) env 1 (classifyStep env 0 s0) =
      some (classifyStep env 1 (classifyStep env 0 s0)) :=
    classifyLoopF_exit_first env m 1 _ hedge1
  refine ⟨classifyStep env 1 (classifyStep env 0 s0), ?_, ?_, ?_, ?_⟩
  · rw [hloop, hexit]
  · rw [hstep1]
  · rw [hstep1]
  · rw [hstep1]
    show (classifyStep env 0 s0).error_log = [e0]
    rw [hstep0]
    show s0.error_log ++ [e0] = [e0]
    rw [hs_log]
    rfl

/-- Witness for the amended C6 at a concrete two-attempt classify model. -/
theorem c6_witness :
    ∃ s1, classifyLoopF 25 envTwoTry 0 s0Demo = some s1 ∧
      s1.user_context = some ucDemo ∧ s1.retry_count = 0 ∧
      s1.error_log = ["Expecting value: line 1 column 1 (char 0)"] :=
  c6_classify_retry_recovery envTwoTry s0Demo 25 ("bad answer") ("good")
    ("Expecting value: line 1 column 1 (char 0)") jDemoUC ucDemo (by omega)
    rfl rfl rfl rfl rfl rfl rfl rfl (by decide)

theorem except_bind_error {α β γ : Type} (e : α) (f : β → Except α γ) :
    (Except.error e : Except α β) >>= f = Except.error e := rfl

/-- C7 counterexample: when the extraction capability returns an object
that omits `user_id`, schema validation rejects it, so the stage does not
succeed with a backfilled intent — it records one error and increments the
retry counter. -/
theorem c7_counterexample :
    envNoId.classifyLlm 0 = Except.ok ("noid") ∧
    envNoId.decode (jsonCandidate ("noid")) = Except.ok jDemoNoId ∧
    JVal.getField jDemoNoId ("user_id") = none ∧
    node_classify envNoId 0 s0Demo =
      failUpd ("user_id: field required") s0Demo ∧
    (node_classify envNoId 0 s0Demo).user_context = none :=
  ⟨rfl, rfl, rfl, by decide, by decide⟩

/-- C7 amended: the defensive default fires when the extracted object
carries a falsy (empty-string) `user_id`, which is backfilled from the
state; an object that omits `user_id` fails schema validation and is
handled by the error branch instead. -/
theorem c7_user_id_backfill (env : AgentEnv) (k : Nat) (s : SchedulerState)
    (c : String) (j : JVal) (uc : UserContext)
    (hc : env.classifyLlm k = Except.ok c)
    (hd : env.decode (jsonCandidate c) = Except.ok j)
    (hv : validateUserContext env.fromIso j = Except.ok uc)
    (huid : uc.user_id = "") :
    node_classify env k s =
      { user_context := some { uc with user_id := s.user_id },
        retry_count := some 0 } ∧
    (∀ j' : JVal, JVal.getField j' ("user_id") = none →
      ∃ msg, validateUserContext env.fromIso j' = Except.error msg) := by
  constructor
  · simp [node_classify, hc, hd, hv, huid]
  · intro j' hj'
    cases j' with
    | jobj fields =>
      refine ⟨"user_id: field required", ?_⟩
      simp [validateUserContext, reqStr, hj', except_bind_error]
    | jnull => exact ⟨_, rfl⟩
    | jbool b => exact ⟨_, rfl⟩
    | jnum n => exact ⟨_, rfl⟩
    | jstr s2 => exact ⟨_, rfl⟩
    | jarr xs => exact ⟨_, rfl⟩

/-- Witness for the amended C7: an empty `user_id` is backfilled from the
state, and the object omitting `user_id` is rejected by validation. -/
theorem c7_witness :
    node_classify envEmptyId 0 s0Demo =
      { user_context := some { ucDemoEmpty with user_id := s0Demo.user_id },
        retry_count := some 0 } ∧
    (∃ msg, validateUserContext envEmptyId.fromIso jDemoNoId =
      Except.error msg) := by
  obtain ⟨h1, h2⟩ := c7_user_id_backfill envEmptyId 0 s0Demo ("emptyid")
    jDemoUCEmpty ucDemoEmpty rfl rfl rfl rfl
  exact ⟨h1, h2 jDemoNoId rfl⟩

/-- C5: the candidate fed to the strict decoder is the greedy match from
the first opening brace to the last closing brace (DOTALL), falling back
to the entire text when no such braced substring exists; Classify and
Reason share this identical stateless extraction (`jsonCandidate`), and
any decode or validation failure surfaces as exactly one recorded error
in either stage. -/
theorem c5_structured_output_shared (content : String) (env : AgentEnv)
    (k : Nat) (s : SchedulerState) :
    ((∃ i j : Nat, i < j ∧ content.toList[i]? = some '\x7b' ∧
        content.toList[j]? = some '\x7d') →
      SpecGreedyCandidate content.toList (jsonCandidate content).toList) ∧
    ((¬ ∃ i j : Nat, i < j ∧ content.toList[i]? = some '\x7b' ∧
        content.toList[j]? = some '\x7d') →
      jsonCandidate content = content) ∧
    (∀ (c e : String), env.classifyLlm k = Except.ok c →
      env.decode (jsonCandidate c) = Except.error e →
      node_classify env k s = failUpd e s) ∧
    (∀ (c e : String) (j : JVal), env.classifyLlm k = Except.ok c →
      env.decode (jsonCandidate c) = Except.ok j →
      validateUserContext env.fromIso j = Except.error e →
      node_classify env k s = failUpd e s) ∧
    (∀ (c e : String),
      env.reasonLlm k (s.traffic_data.getD trafficFallback)
        (s.flight_data.getD (flightFallback env.now)) = Except.ok c →
      env.decode (jsonCandidate c) = Except.error e →
      node_reason env k s = failUpd e s) ∧
    (∀ (c e : String) (j : JVal),
      env.reasonLlm k (s.traffic_data.getD trafficFallback)
        (s.flight_data.getD (flightFallback env.now)) = Except.ok c →
      env.decode (jsonCandidate c) = Except.ok j →
      validatePlan j = Except.error e →
      node_reason env k s = failUpd e s) ∧
    (∀ e2 : String, (failUpd e2 s).error_log = [e2]) := by
  refine ⟨jsonCandidate_match content, jsonCandidate_fallback content,
    ?_, ?_, ?_, ?_, fun e2 => rfl⟩
  · intro c e hc hd
    simp [node_classify, hc, hd]
  · intro c e j hc hd hv
    simp [node_classify, hc, hd, hv]
  · intro c e hc hd
    simp [node_reason, hc, hd]
  · intro c e j hc hd hv
    simp [node_reason, hc, hd, hv]

/-- Witness for C5: a braced text yields the greedy candidate, a brace-free
text falls back to itself, and concrete decode and validation failures in
both stages each record exactly one error. -/
theorem c5_witness :
    SpecGreedyCandidate ("x\x7by\x7dz").toList
      (jsonCandidate ("x\x7by\x7dz")).toList ∧
    jsonCandidate "" = "" ∧
    node_classify envTwoTry 0 s0Demo =
      failUpd ("Expecting value: line 1 column 1 (char 0)") s0Demo ∧
    node_classify envNoId 0 s0Demo =
      failUpd ("user_id: field required") s0Demo ∧
    node_reason envReasonBadText 0 s0Demo =
      failUpd ("Expecting value: line 1 column 1 (char 0)") s0Demo ∧
    node_reason envReasonNoPlan 0 s0Demo =
      failUpd ("buffer_minutes_remaining: field required") s0Demo := by
  refine ⟨(c5_structured_output_shared ("x\x7by\x7dz") envHappy 0 s0Demo).1
      ⟨1, 3, by omega, by decide, by decide⟩,
    (c5_structured_output_shared "" envHappy 0 s0Demo).2.1 ?_,
    (c5_structured_output_shared ("good") envTwoTry 0 s0Demo).2.2.1
      ("bad answer") ("Expecting value: line 1 column 1 (char 0)") rfl rfl,
    (c5_structured_output_shared ("good") envNoId 0 s0Demo).2.2.2.1
      ("noid") ("user_id: field required") jDemoNoId rfl rfl rfl,
    (c5_structured_output_shared ("good") envReasonBadText 0 s0Demo).2.2.2.2.1
      ("bad answer") ("Expecting value: line 1 column 1 (char 0)") rfl rfl,
    (c5_structured_output_shared ("good") envReasonNoPlan 0 s0Demo).2.2.2.2.2.1
      ("noid") ("buffer_minutes_remaining: field required") jDemoNoId rfl rfl
      rfl⟩
  rintro ⟨i, j, hij, hi, hj⟩
  simp at hi

/-- C10: in mock mode neither bundled client ever raises: any internal
failure (missing or malformed mock file, validation error) yields the
fail-safe snapshot — traffic clear with zero distance and duration, flight
on time departing now — and when such total providers feed the pipeline,
the fetch node records no error and stores both snapshots. -/
theorem c10_clients_fail_safe (decode : String → Except String JVal)
    (fromIso : String → Except String Int) (toIso : Int → String)
    (now : Int) (fcT fcF : Option String) (fn : String) (td : Option Int)
    (eT eF : String)
    (hT : trafficMockAttempt decode fcT = Except.error eT)
    (hF : flightMockAttempt decode fromIso toIso fcF fn td =
      Except.error eF) :
    trafficGetMockData decode fcT = trafficFailSafe ∧
    trafficFailSafe.status = TrafficStatus.clear ∧
    trafficFailSafe.distance_meters = 0 ∧
    trafficFailSafe.duration_seconds = 0 ∧
    flightGetMockData decode fromIso toIso now fcF fn td =
      flightFailSafe now fn ∧
    (flightFailSafe now fn).status = FlightStatus.on_time ∧
    (flightFailSafe now fn).scheduled_departure = now ∧
    (flightFailSafe now fn).estimated_departure = now ∧
    (∀ (env : AgentEnv) (ctx : UserContext),
      (∀ o d : String, ∃ tr, env.trafficCall o d = Except.ok tr) →
      (∀ (fl : String) (t : Option Int), ∃ m, env.flightCall fl t = Except.ok m) →
      env.fetchTimeout = false →
      (node_fetch_context env ctx).error_log = [] ∧
      (node_fetch_context env ctx).traffic_data.isSome ∧
      (node_fetch_context env ctx).flight_data.isSome) := by
  refine ⟨?_, rfl, rfl, rfl, ?_, rfl, rfl, rfl, ?_⟩
  · simp [trafficGetMockData, hT]
  · simp [flightGetMockData, hF]
  · intro env ctx hTok hFok hTO
    obtain ⟨mt, hmt⟩ := hTok (defaultedOrigin ctx) (defaultedDestination ctx)
    obtain ⟨mf, hmf⟩ := hFok (defaultedFlightNum ctx) ctx.target_arrival_time
    have hg : fetchGather env (defaultedOrigin ctx) (defaultedDestination ctx)
        (defaultedFlightNum ctx) ctx.target_arrival_time =
        Except.ok (mt, mf) := by
      simp [fetchGather, hTO, hmt, hmf]
    have hn : node_fetch_context env ctx =
        ({ traffic_data := some mt, flight_data := some mf } : StateUpdate) := by
      simp [node_fetch_context, hg]
    rw [hn]
    exact ⟨rfl, rfl, rfl⟩

/-- Witness for C10: missing mock files make both clients return their
fail-safe snapshots, and with always-answering providers the fetch node
logs nothing. -/
theorem c10_witness :
    trafficGetMockData decodeDemo none = trafficFailSafe ∧
    trafficFailSafe.status = TrafficStatus.clear ∧
    trafficFailSafe.distance_meters = 0 ∧
    trafficFailSafe.duration_seconds = 0 ∧
    flightGetMockData decodeDemo envHappy.fromIso (fun _ => "t") 7 none
      ("UA1") none = flightFailSafe 7 ("UA1") ∧
    (flightFailSafe 7 ("UA1")).status = FlightStatus.on_time ∧
    (flightFailSafe 7 ("UA1")).scheduled_departure = 7 ∧
    (flightFailSafe 7 ("UA1")).estimated_departure = 7 ∧
    ((node_fetch_context envHappy ucDemo).error_log = [] ∧
      (node_fetch_context envHappy ucDemo).traffic_data.isSome ∧
      (node_fetch_context envHappy ucDemo).flight_data.isSome) := by
  obtain ⟨h1, h2, h3, h4, h5, h6, h7, h8, h9⟩ :=
    c10_clients_fail_safe decodeDemo envHappy.fromIso (fun _ => "t") 7 none
      none ("UA1") none ("Mock file not found") ("No such file or directory")
      rfl rfl
  exact ⟨h1, h2, h3, h4, h5, h6, h7, h8,
    h9 envHappy ucDemo (fun o d => ⟨trDemo, rfl⟩) (fun fl t => ⟨flDemo, rfl⟩)
      rfl⟩
